import Mathlib

/-!
Verification of the statistical computation library of this repository.

The TypeScript sources are embedded shallowly: JavaScript numbers are
idealised as real numbers extended with the three special values
`NaN`, `-Infinity` and `+Infinity` (the type `JSVal` below), thrown
errors become an `Except` error category, and `Record<string, number>`
arguments become association lists.  Each definition is translated
from the source file named in its doc comment.
-/

open Real

set_option maxHeartbeats 1000000

set_option maxRecDepth 2000

/-- A JavaScript number: either NaN, a signed infinity, or a finite value
(idealised as a real number). -/
inductive JSVal where
  | nan : JSVal
  | negInf : JSVal
  | posInf : JSVal
  | fin : ℝ → JSVal

namespace JSVal

/-- Negation of a JavaScript number. -/
noncomputable def jsNeg : JSVal → JSVal
  | nan => nan
  | negInf => posInf
  | posInf => negInf
  | fin x => fin (-x)

/-- `Math.abs` on a JavaScript number. -/
noncomputable def jsAbs : JSVal → JSVal
  | nan => nan
  | negInf => posInf
  | posInf => posInf
  | fin x => fin |x|

/-- Multiplication `c * v` of a finite real constant with a JavaScript
number (JS semantics: `0 * Infinity = NaN`, `NaN` propagates). -/
noncomputable def jsScale (c : ℝ) : JSVal → JSVal
  | nan => nan
  | negInf => if c > 0 then negInf else if c < 0 then posInf else nan
  | posInf => if c > 0 then posInf else if c < 0 then negInf else nan
  | fin x => fin (c * x)

/-- Multiplication `v * c` of a JavaScript number with a finite real
constant (same semantics as `jsScale`, multiplication commutes). -/
noncomputable def jsMulR (v : JSVal) (c : ℝ) : JSVal := jsScale c v

/-- Addition of two JavaScript numbers; `NaN` propagates and
`Infinity + (-Infinity) = NaN`. -/
noncomputable def jsAdd : JSVal → JSVal → JSVal
  | nan, _ => nan
  | _, nan => nan
  | posInf, negInf => nan
  | negInf, posInf => nan
  | posInf, _ => posInf
  | _, posInf => posInf
  | negInf, _ => negInf
  | _, negInf => negInf
  | fin x, fin y => fin (x + y)

/-- `m + v` for a finite real `m` and a JavaScript number `v`. -/
noncomputable def jsAddR (m : ℝ) : JSVal → JSVal
  | nan => nan
  | negInf => negInf
  | posInf => posInf
  | fin x => fin (m + x)

/-- `m - v` for a finite real `m` and a JavaScript number `v`. -/
noncomputable def jsSubR (m : ℝ) : JSVal → JSVal
  | nan => nan
  | negInf => posInf
  | posInf => negInf
  | fin x => fin (m - x)

/-- `v / c` for a JavaScript number `v` and a real `c > 0`.
(Division by zero and by negative constants is not exercised by the
embedded code paths; the JS semantics for `c > 0` is kept exactly.) -/
noncomputable def jsDivR (v : JSVal) (c : ℝ) : JSVal :=
  match v with
  | nan => nan
  | negInf => if c > 0 then negInf else if c < 0 then posInf else nan
  | posInf => if c > 0 then posInf else if c < 0 then negInf else nan
  | fin x => fin (x / c)

/-- `Math.pow(v, 2)` on a JavaScript number. -/
noncomputable def jsSq : JSVal → JSVal
  | nan => nan
  | negInf => posInf
  | posInf => posInf
  | fin x => fin (x ^ 2)

/-- `Math.ceil` on a JavaScript number. -/
noncomputable def jsCeil : JSVal → JSVal
  | nan => nan
  | negInf => negInf
  | posInf => posInf
  | fin x => fin (Int.ceil x)

/-- `Math.sqrt` applied to a finite real argument: NaN when the argument
is negative. -/
noncomputable def jsSqrt (x : ℝ) : JSVal :=
  if x < 0 then nan else fin (Real.sqrt x)

/-- Comparison `v < c` of a JavaScript number with a real constant;
any comparison with NaN is false. -/
noncomputable def jsLtR (v : JSVal) (c : ℝ) : Bool :=
  match v with
  | nan => false
  | negInf => true
  | posInf => false
  | fin x => decide (x < c)

/-- Comparison `x <= v` of a real with a JavaScript number. -/
noncomputable def jsLeJ (x : ℝ) (v : JSVal) : Bool :=
  match v with
  | nan => false
  | negInf => false
  | posInf => true
  | fin y => decide (x ≤ y)

/-- Comparison `x >= v` of a real with a JavaScript number. -/
noncomputable def jsGeJ (x : ℝ) (v : JSVal) : Bool :=
  match v with
  | nan => false
  | negInf => true
  | posInf => false
  | fin y => decide (x ≥ y)

/-- `Math.max(v, 0)` on a JavaScript number. -/
noncomputable def jsMax0 : JSVal → JSVal
  | nan => nan
  | negInf => fin 0
  | posInf => posInf
  | fin x => fin (max x 0)

/-- `Math.min(v, 1)` on a JavaScript number. -/
noncomputable def jsMin1 : JSVal → JSVal
  | nan => nan
  | negInf => negInf
  | posInf => fin 1
  | fin x => fin (min x 1)

/-- Array element read `l[i]`; an out-of-bounds read yields `undefined`,
which behaves like NaN in the arithmetic contexts the code uses it in
(`undefined + x` is NaN), so it is modelled as NaN here. -/
noncomputable def jsGet (l : List JSVal) (i : ℕ) : JSVal := (l.get? i).getD nan

/-- Array element write `l[i] = v`; writing at index `l.length` appends
(the only out-of-bounds index the embedded code can produce). -/
noncomputable def jsSet (l : List JSVal) (i : ℕ) (v : JSVal) : List JSVal :=
  if i < l.length then l.set i v else l ++ [v]

/-- Sum of a JavaScript array of numbers (as produced by a
`reduce((a, b) => a + b, 0)`); NaN propagates. -/
noncomputable def jsSum (l : List JSVal) : JSVal := l.foldr jsAdd (fin 0)

end JSVal

/-- Error taxonomy of the library.  The sources throw plain `Error`
objects; the message texts are classified as in the specification:
`emptyData` for "Data array cannot be empty" (and its Chinese variant),
`lengthMismatch` for "Pre and post sample lengths must be the same"
(and its Chinese variant), `unsupportedDist` for
"Unsupported distribution type", `invalidParam` for out-of-domain
numeric arguments. -/
inductive StatError where
  | emptyData : StatError
  | lengthMismatch : StatError
  | unsupportedDist : StatError
  | invalidParam : StatError
deriving DecidableEq

/-! ## Special-function kernel

`erf` appears verbatim (same coefficients) in `src/unnamed/part_008`,
`src/unnamed/part_000` and `src/src/utils/goodnessOfFitAnalysis.ts`;
it is embedded once. -/

/-- Abramowitz-Stegun style rational approximation of the error
function, from `src/unnamed/part_008` (lines 1218-1235); identical
copies live in `part_000` and `goodnessOfFitAnalysis.ts`. -/
noncomputable def erf (x : ℝ) : ℝ :=
  let a1 : ℝ := 0.254829592
  let a2 : ℝ := -0.284496736
  let a3 : ℝ := 1.421413741
  let a4 : ℝ := -1.453152027
  let a5 : ℝ := 1.061405429
  let p : ℝ := 0.3275911
  let sign : ℝ := if x ≥ 0 then 1 else -1
  let absX := |x|
  let t := 1 / (1 + p * absX)
  let y := 1 - (((((a5 * t + a4) * t) + a3) * t + a2) * t + a1) * t * Real.exp (-absX * absX)
  sign * y

/-- Standard normal CDF `0.5 * (1 + erf(x / sqrt 2))`, from
`src/unnamed/part_008` (lines 1240-1242). -/
noncomputable def normalCDF (x : ℝ) : ℝ :=
  0.5 * (1 + erf (x / Real.sqrt 2))

/-- The inverse-error-function copy of the statistics utility
`src/unnamed/part_008` (lines 697-712).  It returns signed infinity at
`|x| >= 1` and otherwise takes `Math.sqrt` of
`-log(1-x^2) - 2 log 2 - a log(1-x^2)`, which is NaN whenever that
argument is negative (no guard in this copy). -/
noncomputable def inverseErrorFunctionStats (x : ℝ) : JSVal :=
  let a : ℝ := 0.140012
  let sign : ℝ := if x ≥ 0 then 1 else -1
  let absX := |x|
  if absX ≥ 1 then
    (if x ≥ 0 then JSVal.posInf else JSVal.negInf)
  else
    let logTerm := Real.log (1 - absX * absX)
    JSVal.jsScale sign (JSVal.jsSqrt (-logTerm - 2 * Real.log 2 - a * logTerm))

/-- The inverse-error-function copy of the power-analysis module
`src/unnamed/part_000` (lines 193-222).  Unlike the statistics-utility
copy it guards both the logarithm argument and the square-root
argument, returning signed infinity instead of NaN. -/
noncomputable def inverseErrorFunctionPower (x : ℝ) : JSVal :=
  let a : ℝ := 0.140012
  let sign : ℝ := if x ≥ 0 then 1 else -1
  let absX := |x|
  if absX ≥ 1 then
    (if x ≥ 0 then JSVal.posInf else JSVal.negInf)
  else
    let arg := 1 - absX * absX
    if arg ≤ 0 then
      (if x ≥ 0 then JSVal.posInf else JSVal.negInf)
    else
      let logTerm := Real.log arg
      let sqrtArg := -logTerm - 2 * Real.log 2 - a * logTerm
      if sqrtArg < 0 then
        (if x ≥ 0 then JSVal.posInf else JSVal.negInf)
      else
        JSVal.fin (sign * Real.sqrt sqrtArg)

/-! ## Descriptive statistics (`src/unnamed/part_008`)

Each exported statistic first throws when the sample is empty; under
that guard the numeric body is total, so the embedding separates the
guarded export (returning `Except`) from the pure body used by the
other components. -/

/-- Pure body of `calculateMean`: `sum / length`. -/
noncomputable def listMean (data : List ℝ) : ℝ := data.sum / data.length

/-- `calculateMean` (part_008 lines 202-208): throws on empty input. -/
noncomputable def calculateMean (data : List ℝ) : Except StatError ℝ :=
  if data.length = 0 then .error .emptyData else .ok (listMean data)

/-- Pure body of `calculateVariance`: population variance (divide by n). -/
noncomputable def listVariance (data : List ℝ) : ℝ :=
  (data.map (fun v => (v - listMean data) ^ 2)).sum / data.length

/-- `calculateVariance` (part_008 lines 258-265): throws on empty input. -/
noncomputable def calculateVariance (data : List ℝ) : Except StatError ℝ :=
  if data.length = 0 then .error .emptyData else .ok (listVariance data)

/-- Pure body of `calculateStd`: square root of the population variance. -/
noncomputable def listStd (data : List ℝ) : ℝ := Real.sqrt (listVariance data)

/-- `calculateStd` (part_008 lines 270-272): `sqrt(calculateVariance data)`;
the empty-data error of `calculateVariance` propagates. -/
noncomputable def calculateStd (data : List ℝ) : Except StatError ℝ :=
  (calculateVariance data).map Real.sqrt

/-- Pure body of `calculateStdDev` (part_008 lines 526-535): sample
standard deviation, divide by `n - 1`. -/
noncomputable def listStdDev (data : List ℝ) : ℝ :=
  Real.sqrt ((data.map (fun v => (v - listMean data) ^ 2)).sum / (data.length - 1))

/-- `calculateStdDev` (part_008 lines 526-535): throws on empty input. -/
noncomputable def calculateStdDev (data : List ℝ) : Except StatError ℝ :=
  if data.length = 0 then .error .emptyData else .ok (listStdDev data)

/-- Sorted copy of the sample (the sources sort a spread copy). -/
noncomputable def listSorted (data : List ℝ) : List ℝ :=
  data.mergeSort (fun a b => a ≤ b)

/-- `calculateMedian` (part_008 lines 213-225): average of the two middle
elements of the sorted copy for even length, middle element otherwise. -/
noncomputable def calculateMedian (data : List ℝ) : Except StatError ℝ :=
  if data.length = 0 then .error .emptyData else
    let s := listSorted data
    let n := data.length
    if n % 2 = 0 then
      .ok ((s.getD (n / 2 - 1) 0 + s.getD (n / 2) 0) / 2)
    else
      .ok (s.getD (n / 2) 0)

/-- `calculateMode` (part_008 lines 230-253): all values attaining the
maximal frequency.  The frequency map over JS number keys is modelled
by `List.count`; the key-iteration order is normalised to first
occurrence in the data. -/
noncomputable def calculateMode (data : List ℝ) : Except StatError (List ℝ) :=
  if data.length = 0 then .error .emptyData else
    let maxFreq := ((data.map (fun v => data.count v)).foldr max 0)
    .ok ((data.dedup).filter (fun v => data.count v = maxFreq))

/-- `calculateQuartiles` (part_008 lines 277-289): nearest-rank quartiles
`sorted[floor(n*0.25)]` and `sorted[floor(n*0.75)]`. -/
noncomputable def calculateQuartiles (data : List ℝ) :
    Except StatError (ℝ × ℝ × ℝ) :=
  if data.length = 0 then .error .emptyData else
    let s := listSorted data
    let n := data.length
    let q1 := s.getD (n / 4) 0
    let q3 := s.getD (3 * n / 4) 0
    .ok (q1, q3, q3 - q1)

/-- `calculateSkewness` (part_008 lines 158-175), called without the
optional `basicStats` argument (so `n`, `mean`, `std` are recomputed):
third standardised moment with a zero-std guard. -/
noncomputable def calculateSkewness (data : List ℝ) : Except StatError ℝ :=
  if data.length = 0 then .error .emptyData else
    let n : ℝ := data.length
    let mean := listMean data
    let std := listStd data
    if std = 0 then .ok 0 else
      .ok (((data.map (fun v => (v - mean) ^ 3)).sum / n) / std ^ 3)

/-- `calculateKurtosis` (part_008 lines 180-197), called without
`basicStats`: fourth standardised moment minus 3 (excess kurtosis). -/
noncomputable def calculateKurtosis (data : List ℝ) : Except StatError ℝ :=
  if data.length = 0 then .error .emptyData else
    let n : ℝ := data.length
    let mean := listMean data
    let std := listStd data
    if std = 0 then .ok 0 else
      .ok ((((data.map (fun v => (v - mean) ^ 4)).sum / n) / std ^ 4) - 3)

/-- `calculateDifferences` (part_008 lines 548-553): elementwise
`after - before`; throws on unequal lengths (no emptiness check). -/
noncomputable def calculateDifferences (before after : List ℝ) :
    Except StatError (List ℝ) :=
  if before.length ≠ after.length then .error .lengthMismatch
  else .ok (List.zipWith (fun b a => a - b) before after)

/-- `Math.min(...data)` for a non-empty array (the empty case, which JS
maps to `Infinity`, is unreachable behind the emptiness guards). -/
noncomputable def listMin : List ℝ → ℝ
  | [] => 0
  | h :: t => t.foldl min h

/-- `Math.max(...data)` for a non-empty array. -/
noncomputable def listMax : List ℝ → ℝ
  | [] => 0
  | h :: t => t.foldl max h

/-! ## t critical value table (`src/unnamed/part_008` lines 415-466) -/

/-- Degrees-of-freedom keys of the hard-coded t table. -/
def tTableKeys : List ℕ :=
  [1, 2, 3, 4, 5, 6, 7, 8, 9, 10, 11, 12, 13, 14, 15, 16, 17, 18, 19,
   20, 21, 22, 23, 24, 25, 30, 40, 50, 60, 100, 1000, 10000]

/-- Row of the t table for confidence level 0.90. -/
noncomputable def tRow90 (k : ℕ) : ℝ :=
  ((([(1, 6.314), (2, 2.920), (3, 2.353), (4, 2.132), (5, 2.015),
      (6, 1.943), (7, 1.895), (8, 1.860), (9, 1.833), (10, 1.812),
      (11, 1.796), (12, 1.782), (13, 1.771), (14, 1.761), (15, 1.753),
      (16, 1.746), (17, 1.740), (18, 1.734), (19, 1.729), (20, 1.725),
      (21, 1.721), (22, 1.717), (23, 1.714), (24, 1.711), (25, 1.708),
      (30, 1.697), (40, 1.684), (50, 1.676), (60, 1.671), (100, 1.660),
      (1000, 1.646), (10000, 1.645)] : List (ℕ × ℝ)).lookup k).getD 0)

/-- Row of the t table for confidence level 0.95. -/
noncomputable def tRow95 (k : ℕ) : ℝ :=
  ((([(1, 12.706), (2, 4.303), (3, 3.182), (4, 2.776), (5, 2.571),
      (6, 2.447), (7, 2.365), (8, 2.306), (9, 2.262), (10, 2.228),
      (11, 2.201), (12, 2.179), (13, 2.160), (14, 2.145), (15, 2.131),
      (16, 2.120), (17, 2.110), (18, 2.101), (19, 2.093), (20, 2.086),
      (21, 2.080), (22, 2.074), (23, 2.069), (24, 2.064), (25, 2.060),
      (30, 2.042), (40, 2.021), (50, 2.009), (60, 2.000), (100, 1.984),
      (1000, 1.962), (10000, 1.960)] : List (ℕ × ℝ)).lookup k).getD 0)

/-- Row of the t table for confidence level 0.99. -/
noncomputable def tRow99 (k : ℕ) : ℝ :=
  ((([(1, 63.657), (2, 9.925), (3, 5.841), (4, 4.604), (5, 4.032),
      (6, 3.707), (7, 3.499), (8, 3.355), (9, 3.250), (10, 3.169),
      (11, 3.106), (12, 3.055), (13, 3.012), (14, 2.977), (15, 2.947),
      (16, 2.921), (17, 2.898), (18, 2.878), (19, 2.861), (20, 2.845),
      (21, 2.831), (22, 2.819), (23, 2.807), (24, 2.797), (25, 2.787),
      (30, 2.750), (40, 2.704), (50, 2.678), (60, 2.660), (100, 2.626),
      (1000, 2.581), (10000, 2.576)] : List (ℕ × ℝ)).lookup k).getD 0)

/-- The `closestDf` search of `getApproximateTCriticalValue`: decrement
until a tabulated key is reached (for `df >= 1` this is the largest key
`<= df`); for `df = 0` the loop does not run and the fallback picks the
largest key, 10000. -/
def findClosestDf (df : ℕ) : ℕ :=
  if df = 0 then 10000
  else ((tTableKeys.filter (fun k => k ≤ df)).foldr max 1)

/-- `getApproximateTCriticalValue` (part_008 lines 415-466): table
lookup keyed by the snapped degrees of freedom; the level lookup
`dfEntry[confidenceLevel] || dfEntry[0.95] || 1.96` falls back to the
0.95 column for any non-tabulated level (every row has a 0.95 entry,
so the final 1.96 fallback is unreachable). -/
noncomputable def getApproximateTCriticalValue (df : ℕ) (confidenceLevel : ℝ) : ℝ :=
  let k := findClosestDf df
  if confidenceLevel = 0.90 then tRow90 k
  else if confidenceLevel = 0.95 then tRow95 k
  else if confidenceLevel = 0.99 then tRow99 k
  else tRow95 k

/-! ## Confidence-interval engine (`src/unnamed/part_008`) -/

/-- Tail types, as passed by the UI callers (`two-tailed`,
`left-tailed`, `right-tailed`). -/
inductive TailType where
  | twoTailed : TailType
  | leftTailed : TailType
  | rightTailed : TailType
deriving DecidableEq

/-- Options record of `calculateConfidenceInterval`.  The TypeScript
options type of the part_008 copy declares only `isNormal`,
`knownVariance` and `populationVariance`; the UI callers additionally
pass a `tailType` property, which that copy never reads, so the field
is carried here but unused by the body. -/
structure CIOptions where
  isNormal : Bool := false
  knownVariance : Bool := false
  populationVariance : Option ℝ := none
  tailType : TailType := .twoTailed

/-- Result record of `calculateConfidenceInterval`. -/
structure CIResult where
  lower : JSVal
  upper : JSVal
  marginOfError : JSVal
  method : String
  criticalValue : JSVal

/-- The z-critical-value switch used at several places of part_008
(e.g. lines 349-366): hard-coded constants for levels 0.90/0.95/0.99,
otherwise `|sqrt 2 * inverseErrorFunction(2*(1-alpha/2)-1)|` with the
unguarded statistics-utility copy of the inverse error function. -/
noncomputable def zCriticalSwitch (confidenceLevel : ℝ) : JSVal :=
  if confidenceLevel = 0.90 then .fin 1.645
  else if confidenceLevel = 0.95 then .fin 1.96
  else if confidenceLevel = 0.99 then .fin 2.576
  else
    let alpha := 1 - confidenceLevel
    JSVal.jsAbs (JSVal.jsScale (Real.sqrt 2)
      (inverseErrorFunctionStats (2 * (1 - alpha / 2) - 1)))

/-- `calculateConfidenceInterval` (part_008 lines 309-407).  Known
variance selects the z switch; unknown variance with `isNormal` or
`n <= 30` selects the t table at `df = n-1`; otherwise the z switch.
The bounds are always `mean ± marginOfError`; the `tailType` option
is not consulted anywhere in this copy. -/
noncomputable def calculateConfidenceInterval (data : List ℝ)
    (confidenceLevel : ℝ) (options : CIOptions) :
    Except StatError CIResult :=
  if data.length = 0 then .error .emptyData else
    let n := data.length
    let mean := listMean data
    let standardError : ℝ :=
      if options.knownVariance ∧ options.populationVariance ≠ none then
        Real.sqrt (options.populationVariance.getD 0) / Real.sqrt n
      else
        listStd data / Real.sqrt n
    let criticalValue : JSVal :=
      if options.knownVariance then
        zCriticalSwitch confidenceLevel
      else if options.isNormal ∨ n ≤ 30 then
        .fin (getApproximateTCriticalValue (n - 1) confidenceLevel)
      else
        zCriticalSwitch confidenceLevel
    let method : String :=
      if options.knownVariance then "Z-distribution (known variance)"
      else if options.isNormal ∨ n ≤ 30 then "t distribution (normal, unknown variance)"
      else "Z-distribution (non-normal, large sample, unknown variance)"
    let marginOfError := JSVal.jsMulR criticalValue standardError
    .ok { lower := JSVal.jsSubR mean marginOfError,
          upper := JSVal.jsAddR mean marginOfError,
          marginOfError := marginOfError,
          method := method,
          criticalValue := criticalValue }

/-- Method selector of `calculateTwoSampleConfidenceInterval`. -/
inductive TwoSampleMethod where
  | pooled : TwoSampleMethod
  | welch : TwoSampleMethod
  | paired : TwoSampleMethod
deriving DecidableEq

/-- Result record of `calculateTwoSampleConfidenceInterval`. -/
structure TwoSampleCIResult where
  lower : ℝ
  upper : ℝ
  marginOfError : ℝ
  criticalValue : ℝ
  meanDiff : ℝ

/-- `calculateTwoSampleConfidenceInterval` (part_008 lines 985-1076).
The emptiness check on either array precedes the method dispatch; the
paired branch then throws on unequal lengths.  (The display-only
method-label string is omitted.) -/
noncomputable def calculateTwoSampleConfidenceInterval
    (data1 data2 : List ℝ) (confidenceLevel : ℝ)
    (method : TwoSampleMethod) : Except StatError TwoSampleCIResult :=
  if data1.length = 0 ∨ data2.length = 0 then .error .emptyData else
    let n1 := data1.length
    let n2 := data2.length
    let mean1 := listMean data1
    let mean2 := listMean data2
    let meanDiff := mean1 - mean2
    match method with
    | .paired =>
      if n1 ≠ n2 then .error .lengthMismatch else
        let differences := List.zipWith (fun x y => x - y) data1 data2
        let stdDiff := listStd differences
        let standardError := stdDiff / Real.sqrt n1
        let criticalValue := getApproximateTCriticalValue (n1 - 1) confidenceLevel
        let marginOfError := criticalValue * standardError
        .ok { lower := meanDiff - marginOfError,
              upper := meanDiff + marginOfError,
              marginOfError := marginOfError,
              criticalValue := criticalValue,
              meanDiff := meanDiff }
    | .pooled =>
      let var1 := listVariance data1
      let var2 := listVariance data2
      let pooledVar := ((n1 - 1 : ℝ) * var1 + (n2 - 1 : ℝ) * var2) / (n1 + n2 - 2 : ℝ)
      let standardError := Real.sqrt (pooledVar * (1 / n1 + 1 / n2))
      let criticalValue := getApproximateTCriticalValue (n1 + n2 - 2) confidenceLevel
      let marginOfError := criticalValue * standardError
      .ok { lower := meanDiff - marginOfError,
            upper := meanDiff + marginOfError,
            marginOfError := marginOfError,
            criticalValue := criticalValue,
            meanDiff := meanDiff }
    | .welch =>
      let var1 := listVariance data1
      let var2 := listVariance data2
      let standardError := Real.sqrt (var1 / n1 + var2 / n2)
      let numerator := (var1 / n1 + var2 / n2) ^ 2
      let denominator := var1 ^ 2 / ((n1 : ℝ) ^ 2 * (n1 - 1 : ℝ))
        + var2 ^ 2 / ((n2 : ℝ) ^ 2 * (n2 - 1 : ℝ))
      let df := Int.toNat ⌊numerator / denominator⌋
      let criticalValue := getApproximateTCriticalValue df confidenceLevel
      let marginOfError := criticalValue * standardError
      .ok { lower := meanDiff - marginOfError,
            upper := meanDiff + marginOfError,
            marginOfError := marginOfError,
            criticalValue := criticalValue,
            meanDiff := meanDiff }

/-! ## Hypothesis-testing engine (`src/unnamed/part_008`) -/

/-- Requested test tail, the string union `two | left | right`;
modelled as a `String` because the sources branch with
`if testType === "left" ... else if ... === "right" ... else` so that
any other string falls into the two-sided branch, exactly as here. -/
abbrev TestTypeStr := String

/-- `tCDF` (part_008 lines 1247-1271): normal CDF for `df >= 30`,
otherwise a correction-term approximation, clamped to `[0, 1]`. -/
noncomputable def tCDF (x : ℝ) (df : ℕ) : ℝ :=
  if df ≥ 30 then normalCDF x
  else
    let absX := |x|
    let zValue := normalCDF absX
    let correction := 1 / (4 * df) - 7 / (96 * (df : ℝ) ^ 2) + 127 / (9216 * (df : ℝ) ^ 3)
    let pApprox :=
      if x < 0 then 1 - zValue + correction * (absX * absX + 1) * (zValue - 0.5)
      else zValue + correction * (absX * absX + 1) * (0.5 - zValue)
    min 1 (max 0 pApprox)

/-- `calculateTTestPValue` (part_008 lines 1280-1300); the embedded
`tCDF` never throws, so only the try branch is reachable. -/
noncomputable def calculateTTestPValue (tValue : ℝ) (df : ℕ)
    (tail : TestTypeStr) : ℝ :=
  if tail = "two" then 2 * min (tCDF tValue df) (1 - tCDF tValue df)
  else if tail = "left" then tCDF tValue df
  else 1 - tCDF tValue df

/-- The companion interval record `{lower, upper}` of the test
functions. -/
structure TestCI where
  lower : JSVal
  upper : JSVal

/-- Result record of `performZTest` (the display-only method-label
string is omitted). -/
structure ZTestResult where
  mean : ℝ
  zValue : ℝ
  pValue : ℝ
  criticalValue : JSVal
  rejected : Bool
  confidenceInterval : TestCI

/-- `performZTest` (part_008 lines 1311-1397).  The critical value
comes from the unguarded inverse error function; rejection compares
the statistic with the critical value using non-strict `<=`/`>=`; the
companion interval always uses the two-sided critical value but its
bounds are tail dependent, with literal infinities on the unbounded
side. -/
noncomputable def performZTest (data : List ℝ) (mu0 sigma : ℝ)
    (alpha : ℝ) (testType : TestTypeStr) :
    Except StatError ZTestResult :=
  if data.length = 0 then .error .emptyData else
    let n := data.length
    let mean := listMean data
    let standardError := sigma / Real.sqrt n
    let zValue := (mean - mu0) / standardError
    let pValue : ℝ :=
      if testType = "left" then normalCDF zValue
      else if testType = "right" then 1 - normalCDF zValue
      else 2 * (1 - normalCDF |zValue|)
    let criticalValue : JSVal :=
      if testType = "left" then
        JSVal.jsNeg (JSVal.jsScale (Real.sqrt 2)
          (inverseErrorFunctionStats (2 * (1 - alpha) - 1)))
      else if testType = "right" then
        JSVal.jsScale (Real.sqrt 2) (inverseErrorFunctionStats (2 * (1 - alpha) - 1))
      else
        JSVal.jsScale (Real.sqrt 2) (inverseErrorFunctionStats (2 * (1 - alpha / 2) - 1))
    let rejected : Bool :=
      if testType = "left" then JSVal.jsLeJ zValue criticalValue
      else if testType = "right" then JSVal.jsGeJ zValue criticalValue
      else JSVal.jsGeJ |zValue| criticalValue
    let zCritical : JSVal :=
      JSVal.jsScale (Real.sqrt 2) (inverseErrorFunctionStats (2 * (1 - alpha / 2) - 1))
    let confidenceInterval : TestCI :=
      if testType = "two" then
        { lower := JSVal.jsSubR mean (JSVal.jsMulR zCritical standardError),
          upper := JSVal.jsAddR mean (JSVal.jsMulR zCritical standardError) }
      else if testType = "left" then
        { lower := JSVal.negInf,
          upper := JSVal.jsAddR mean (JSVal.jsMulR zCritical standardError) }
      else
        { lower := JSVal.jsSubR mean (JSVal.jsMulR zCritical standardError),
          upper := JSVal.posInf }
    .ok { mean := mean, zValue := zValue, pValue := pValue,
          criticalValue := criticalValue, rejected := rejected,
          confidenceInterval := confidenceInterval }

/-- Result record of `performTTest` (display-only method label
omitted). -/
structure TTestResult where
  mean : ℝ
  std : ℝ
  tValue : ℝ
  df : ℕ
  pValue : ℝ
  criticalValue : ℝ
  rejected : Bool
  confidenceInterval : TestCI

/-- `performTTest` (part_008 lines 1407-1491).  Critical values come
from the t table (real-valued, never NaN); rejection is non-strict;
the companion interval uses the two-sided table value
`getApproximateTCriticalValue(df, 1 - alpha/2)` with tail-dependent
bounds and literal infinities. -/
noncomputable def performTTest (data : List ℝ) (mu0 : ℝ)
    (alpha : ℝ) (testType : TestTypeStr) :
    Except StatError TTestResult :=
  if data.length = 0 then .error .emptyData else
    let n := data.length
    let mean := listMean data
    let std := listStd data
    let standardError := std / Real.sqrt n
    let df := n - 1
    let tValue := (mean - mu0) / standardError
    let pValue := calculateTTestPValue tValue df testType
    let criticalValue : ℝ :=
      if testType = "left" then -getApproximateTCriticalValue df (1 - alpha)
      else if testType = "right" then getApproximateTCriticalValue df (1 - alpha)
      else getApproximateTCriticalValue df (1 - alpha / 2)
    let rejected : Bool :=
      if testType = "left" then decide (tValue ≤ criticalValue)
      else if testType = "right" then decide (tValue ≥ criticalValue)
      else decide (|tValue| ≥ criticalValue)
    let tCritical := getApproximateTCriticalValue df (1 - alpha / 2)
    let confidenceInterval : TestCI :=
      if testType = "two" then
        { lower := .fin (mean - tCritical * standardError),
          upper := .fin (mean + tCritical * standardError) }
      else if testType = "left" then
        { lower := JSVal.negInf,
          upper := .fin (mean + tCritical * standardError) }
      else
        { lower := .fin (mean - tCritical * standardError),
          upper := JSVal.posInf }
    .ok { mean := mean, std := std, tValue := tValue, df := df,
          pValue := pValue, criticalValue := criticalValue,
          rejected := rejected, confidenceInterval := confidenceInterval }

/-! ## Power / sample-size engine (`src/unnamed/part_000`)

These are the dedicated power-analysis module functions; they build
their z quantiles from the guarded inverse error function, so the
quantile is a JavaScript number that can be infinite. -/

/-- `normalCDF` applied to a JavaScript number.  Evaluating the erf
formula at `±Infinity` gives `t = 0` and
`0 * exp(-Infinity) = 0`, hence `erf(±Infinity) = ±1` and CDF values
1 and 0; NaN propagates. -/
noncomputable def jsNormalCDF : JSVal → JSVal
  | JSVal.nan => JSVal.nan
  | JSVal.negInf => .fin 0
  | JSVal.posInf => .fin 1
  | JSVal.fin x => .fin (normalCDF x)

/-- `calculateZTestPower` (part_000 lines 61-82): power of the
one-sample z test via the normal CDF, clamped to `[0, 1]`.  The
sample size argument is a finite number here (the only shape the
verified statements feed it). -/
noncomputable def calculateZTestPower (mu1 mu0 sigma : ℝ) (n : ℝ)
    (alpha : ℝ) (testType : TestTypeStr) : JSVal :=
  let delta := mu1 - mu0
  let se := sigma / Real.sqrt n
  if testType = "two" then
    let zAlphaHalf := JSVal.jsScale (Real.sqrt 2)
      (inverseErrorFunctionPower (2 * (1 - alpha / 2) - 1))
    JSVal.jsMin1 (JSVal.jsMax0 (JSVal.jsAdd
      (jsNormalCDF (JSVal.jsAddR (|delta| / se) (JSVal.jsNeg zAlphaHalf)))
      (jsNormalCDF (JSVal.jsAddR (-(|delta| / se)) (JSVal.jsNeg zAlphaHalf)))))
  else if testType = "right" then
    let zAlpha := JSVal.jsScale (Real.sqrt 2)
      (inverseErrorFunctionPower (2 * (1 - alpha) - 1))
    JSVal.jsMin1 (JSVal.jsMax0
      (jsNormalCDF (JSVal.jsAddR (delta / se) (JSVal.jsNeg zAlpha))))
  else
    let zAlpha := JSVal.jsScale (Real.sqrt 2)
      (inverseErrorFunctionPower (2 * (1 - alpha) - 1))
    JSVal.jsMin1 (JSVal.jsMax0
      (jsNormalCDF (JSVal.jsAddR (-(delta / se)) (JSVal.jsNeg zAlpha))))

/-- `calculateSampleSizeForPower` (part_000 lines 130-153):
`ceil(((zAlpha + zBeta) * sigma / delta)^2)` with the approximate
quantiles `zAlpha`, `zBeta` (two-sided split for the two-tailed
case). -/
noncomputable def calculateSampleSizeForPower (mu1 mu0 sigma alpha beta : ℝ)
    (testType : TestTypeStr) : JSVal :=
  let delta := |mu1 - mu0|
  let zAlpha :=
    if testType = "two" then
      JSVal.jsScale (Real.sqrt 2) (inverseErrorFunctionPower (2 * (1 - alpha / 2) - 1))
    else
      JSVal.jsScale (Real.sqrt 2) (inverseErrorFunctionPower (2 * (1 - alpha) - 1))
  let zBeta := JSVal.jsScale (Real.sqrt 2) (inverseErrorFunctionPower (2 * (1 - beta) - 1))
  JSVal.jsCeil (JSVal.jsSq (JSVal.jsDivR
    (JSVal.jsMulR (JSVal.jsAdd zAlpha zBeta) sigma) delta))

/-! ## Parameter estimation (`src/unnamed/part_008` lines 7-153)

Both estimators are embedded for calls without the optional
`basicStats` argument, so the `if (!mean || !variance)` recomputation
branch is always taken.  The returned `Record<string, number>` is an
association list. -/

/-- `calculateMLE` (part_008 lines 7-77). -/
noncomputable def calculateMLE (data : List ℝ) (distType : String) :
    Except StatError (List (String × ℝ)) :=
  let n : ℝ := data.length
  if distType = "normal" then
    let mean := data.sum / n
    let variance := (data.map (fun v => (v - mean) ^ 2)).sum / n
    let std := Real.sqrt variance
    .ok [("mean", mean), ("std", std)]
  else if distType = "uniform" then
    .ok [("a", listMin data), ("b", listMax data)]
  else if distType = "exponential" then
    let mean := data.sum / n
    .ok [("lambda", 1 / mean)]
  else if distType = "poisson" then
    let mean := data.sum / n
    .ok [("lambda", mean)]
  else if distType = "gamma" then
    let mean := data.sum / n
    let variance := (data.map (fun v => (v - mean) ^ 2)).sum / n
    .ok [("shape", max 0.001 (mean ^ 2 / variance)), ("scale", variance / mean)]
  else if distType = "beta" then
    let mean := data.sum / n
    let variance := (data.map (fun v => (v - mean) ^ 2)).sum / n
    let s := mean * (1 - mean) / variance - 1
    .ok [("alpha", mean * s), ("beta", (1 - mean) * s)]
  else .error .unsupportedDist

/-- `calculateMoM` (part_008 lines 82-153). -/
noncomputable def calculateMoM (data : List ℝ) (distType : String) :
    Except StatError (List (String × ℝ)) :=
  let n : ℝ := data.length
  if distType = "normal" then
    let mean := data.sum / n
    let variance := (data.map (fun v => (v - mean) ^ 2)).sum / n
    let std := Real.sqrt variance
    .ok [("mean", mean), ("std", std)]
  else if distType = "uniform" then
    let mean := data.sum / n
    let variance := (data.map (fun v => (v - mean) ^ 2)).sum / n
    let range := Real.sqrt (12 * variance)
    .ok [("a", mean - range / 2), ("b", mean + range / 2)]
  else if distType = "exponential" then
    let mean := data.sum / n
    .ok [("lambda", 1 / mean)]
  else if distType = "poisson" then
    let mean := data.sum / n
    .ok [("lambda", mean)]
  else if distType = "gamma" then
    let mean := data.sum / n
    let variance := (data.map (fun v => (v - mean) ^ 2)).sum / n
    .ok [("shape", max 0.001 (mean ^ 2 / variance)), ("scale", variance / mean)]
  else if distType = "beta" then
    let mean := data.sum / n
    let variance := (data.map (fun v => (v - mean) ^ 2)).sum / n
    let s := mean * (1 - mean) / variance - 1
    .ok [("alpha", mean * s), ("beta", (1 - mean) * s)]
  else .error .unsupportedDist

/-! ## Goodness-of-fit: chi-square test, merging copy
(`src/src/utils/goodnessOfFitAnalysis.ts` lines 182-313) -/

/-- Falsy-or parameter read `parameters.key || fallback`: a missing key
or the (falsy) value 0 selects the fallback. -/
noncomputable def paramOr (params : List (String × ℝ)) (key : String) (fallback : ℝ) : ℝ :=
  match params.lookup key with
  | some v => if v = 0 then fallback else v
  | none => fallback

/-- Local `calculateMean` of `goodnessOfFitAnalysis.ts` (lines 410-413):
returns 0 on the empty array instead of throwing. -/
noncomputable def gofMean (data : List ℝ) : ℝ :=
  if data.length = 0 then 0 else data.sum / data.length

/-- Local `calculateStd` of `goodnessOfFitAnalysis.ts` (lines 418-423):
sample standard deviation (divide by `n - 1`), 0 for length at most 1. -/
noncomputable def gofStd (data : List ℝ) : ℝ :=
  if data.length ≤ 1 then 0
  else Real.sqrt ((data.map (fun v => (v - gofMean data) ^ 2)).sum / (data.length - 1))

/-- Index of the bin a value falls into (`goodnessOfFitAnalysis.ts`
lines 210-226): the observed-frequency loop scans the bins in order and
increments the first bin whose range contains the value, where the last
bin includes its upper edge; `none` when no bin matches. -/
noncomputable def findBinGoF (numBins : ℕ) (mn w : ℝ) (v : ℝ) : Option ℕ :=
  (List.range numBins).find? (fun i =>
    if i = numBins - 1 then decide (mn + i * w ≤ v ∧ v ≤ mn + (i + 1) * w)
    else decide (mn + i * w ≤ v ∧ v < mn + (i + 1) * w))

/-- Observed frequencies over the equal-width bins
(`goodnessOfFitAnalysis.ts` lines 196-226). -/
noncomputable def observedFreqsGoF (data : List ℝ) (numBins : ℕ) : List ℕ :=
  let mn := listMin data
  let w := (listMax data - mn) / numBins
  (List.range numBins).map (fun i =>
    (data.filter (fun v => findBinGoF numBins mn w v = some i)).length)

/-- Expected frequencies per distribution family
(`goodnessOfFitAnalysis.ts` lines 228-266); unsupported family names
throw. -/
noncomputable def expectedFreqsGoF (data : List ℝ) (distributionType : String)
    (params : List (String × ℝ)) (numBins : ℕ) : Except StatError (List ℝ) :=
  let n : ℝ := data.length
  let mn := listMin data
  let mx := listMax data
  let w := (mx - mn) / numBins
  if distributionType = "normal" then
    let mean := paramOr params "mean" (gofMean data)
    let std := paramOr params "std" (gofStd data)
    .ok ((List.range numBins).map (fun i : ℕ =>
      n * (normalCDF ((mn + ((i : ℝ) + 1) * w - mean) / std)
          - normalCDF ((mn + (i : ℝ) * w - mean) / std))))
  else if distributionType = "uniform" then
    let a := paramOr params "a" mn
    let b := paramOr params "b" mx
    .ok ((List.range numBins).map (fun _ => n * (w / (b - a))))
  else if distributionType = "exponential" then
    let lambda := paramOr params "lambda" (1 / gofMean data)
    .ok ((List.range numBins).map (fun i : ℕ =>
      n * ((1 - Real.exp (-lambda * max (mn + ((i : ℝ) + 1) * w) 0))
          - (1 - Real.exp (-lambda * max (mn + (i : ℝ) * w) 0)))))
  else .error .unsupportedDist

/-- The bin-merging loop (`goodnessOfFitAnalysis.ts` lines 268-291),
operating on the observed and expected frequency arrays in parallel.
A bin with expected frequency below 5 is merged into its successor when
it is the first bin (`exp[1] += exp[0]`, then both index-0 entries are
spliced out) and into its predecessor otherwise; only then does the
index advance.  When the first-bin merge fires with a single remaining
bin, the JS write `exp[1] += exp[0]` reads `undefined`, appends NaN and
the splice leaves `[NaN]`, after which `NaN < 5` is false and the loop
exits.  The loop always terminates within `2 * length + 3` iterations;
the fuel argument makes that explicit, with `none` for exhausted fuel
(never returned for sufficient fuel). -/
noncomputable def mergeBinsGoF (fuel : ℕ) (obs exp : List JSVal) (i : ℕ) :
    Option (List JSVal × List JSVal) :=
  match fuel with
  | 0 => none
  | fuel + 1 =>
    if i < exp.length then
      if JSVal.jsLtR (JSVal.jsGet exp i) 5 then
        if i = 0 then
          mergeBinsGoF fuel
            ((JSVal.jsSet obs 1 (JSVal.jsAdd (JSVal.jsGet obs 1) (JSVal.jsGet obs 0))).eraseIdx 0)
            ((JSVal.jsSet exp 1 (JSVal.jsAdd (JSVal.jsGet exp 1) (JSVal.jsGet exp 0))).eraseIdx 0)
            i
        else
          mergeBinsGoF fuel
            ((obs.set (i - 1) (JSVal.jsAdd (JSVal.jsGet obs (i - 1)) (JSVal.jsGet obs i))).eraseIdx i)
            ((exp.set (i - 1) (JSVal.jsAdd (JSVal.jsGet exp (i - 1)) (JSVal.jsGet exp i))).eraseIdx i)
            i
      else
        mergeBinsGoF fuel obs exp (i + 1)
    else
      some (obs, exp)

/-- `a - b` on JavaScript numbers (equal to `a + (-b)`). -/
noncomputable def jsSub (a b : JSVal) : JSVal := JSVal.jsAdd a (JSVal.jsNeg b)

/-- `a / b` on JavaScript numbers. -/
noncomputable def jsDiv (a b : JSVal) : JSVal :=
  match a, b with
  | JSVal.nan, _ => JSVal.nan
  | _, JSVal.nan => JSVal.nan
  | JSVal.posInf, JSVal.posInf => JSVal.nan
  | JSVal.posInf, JSVal.negInf => JSVal.nan
  | JSVal.negInf, JSVal.posInf => JSVal.nan
  | JSVal.negInf, JSVal.negInf => JSVal.nan
  | JSVal.fin _, JSVal.posInf => JSVal.fin 0
  | JSVal.fin _, JSVal.negInf => JSVal.fin 0
  | JSVal.posInf, JSVal.fin y =>
      if y ≥ 0 then JSVal.posInf else JSVal.negInf
  | JSVal.negInf, JSVal.fin y =>
      if y ≥ 0 then JSVal.negInf else JSVal.posInf
  | JSVal.fin x, JSVal.fin y =>
      if y = 0 then
        (if x = 0 then JSVal.nan else if x > 0 then JSVal.posInf else JSVal.negInf)
      else JSVal.fin (x / y)

/-- `v > c` comparison of a JavaScript number with a real constant. -/
noncomputable def jsGtR (v : JSVal) (c : ℝ) : Bool :=
  match v with
  | JSVal.nan => false
  | JSVal.negInf => false
  | JSVal.posInf => true
  | JSVal.fin x => decide (x > c)

/-- Chi-square statistic accumulation over the merged bins
(`goodnessOfFitAnalysis.ts` lines 293-300): bins with non-positive
expected frequency are skipped. -/
noncomputable def chiSquareStatGoF (obs exp : List JSVal) : JSVal :=
  (List.zip obs exp).foldl (fun acc oe =>
    if jsGtR oe.2 0 then
      JSVal.jsAdd acc (jsDiv (JSVal.jsSq (jsSub oe.1 oe.2)) oe.2)
    else acc) (JSVal.fin 0)

/-- Result record of the merging `calculateChiSquareTest`. -/
structure ChiSquareGoFResult where
  statistic : JSVal
  degreesOfFreedom : ℤ
  observedFrequencies : List JSVal
  expectedFrequencies : List JSVal

/-- `calculateChiSquareTest` of `goodnessOfFitAnalysis.ts`
(lines 182-313): equal-width binning, per-family expected frequencies,
neighbour merging of low-expected bins, statistic and
`df = bins - 1 - numEstimatedParams` (2 for normal, 1 otherwise).
`none` only on merge-loop fuel exhaustion, which never happens for the
supplied fuel. -/
noncomputable def calculateChiSquareTestGoF (data : List ℝ)
    (distributionType : String) (params : List (String × ℝ))
    (numBins : ℕ) : Except StatError (Option ChiSquareGoFResult) :=
  match expectedFreqsGoF data distributionType params numBins with
  | .error e => .error e
  | .ok expected =>
    let observed := observedFreqsGoF data numBins
    match mergeBinsGoF (2 * numBins + 3)
        (observed.map (fun k : ℕ => JSVal.fin (k : ℝ)))
        (expected.map JSVal.fin) 0 with
    | none => .ok none
    | some (obs2, exp2) =>
      let numParameters : ℤ := if distributionType = "normal" then 2 else 1
      .ok (some { statistic := chiSquareStatGoF obs2 exp2,
                  degreesOfFreedom := (exp2.length : ℤ) - 1 - numParameters,
                  observedFrequencies := obs2,
                  expectedFrequencies := exp2 })

/-! ## Goodness-of-fit: chi-square test, filtering copy
(`src/unnamed/part_008` lines 2028-2134) -/

/-- `Number.EPSILON`. -/
noncomputable def jsEpsilon : ℝ := (2 : ℝ) ^ (-52 : ℤ)

/-- `factorial` (part_008 lines 1881-1889) for the integer arguments it
receives: 0 for negative input. -/
noncomputable def factorialJS (k : ℤ) : ℝ :=
  if k < 0 then 0 else (Nat.factorial k.toNat : ℝ)

/-- `poissonPMF` (part_008 lines 1894-1897). -/
noncomputable def poissonPMF (k : ℤ) (lambda : ℝ) : ℝ :=
  if k < 0 then 0 else lambda ^ k.toNat * Real.exp (-lambda) / factorialJS k

/-- `poissonCDF` (part_008 lines 1902-1908): sum of the PMF from 0
to `k` (an empty sum for negative `k`). -/
noncomputable def poissonCDF (k : ℤ) (lambda : ℝ) : ℝ :=
  if k < 0 then 0
  else ((List.range (k.toNat + 1)).map (fun i => poissonPMF i lambda)).sum

/-- `binomialPMF` (part_008 lines 2279-2285). -/
noncomputable def binomialPMF (k n : ℤ) (p : ℝ) : ℝ :=
  if k < 0 ∨ k > n then 0
  else if p < 0 ∨ p > 1 then 0
  else factorialJS n / (factorialJS k * factorialJS (n - k))
    * p ^ k.toNat * (1 - p) ^ (n - k).toNat

/-- `binomialCDF` (part_008 lines 1846-1855). -/
noncomputable def binomialCDF (k n : ℤ) (p : ℝ) : ℝ :=
  if k < 0 then 0
  else if k ≥ n then 1
  else min 1 (max 0 (((List.range (k.toNat + 1)).map
    (fun i => binomialPMF i n p)).sum))

/-- Lanczos body of `gamma` (part_008 lines 2311-2350) for arguments
at least 0.5. -/
noncomputable def gammaJSAux (z : ℝ) : ℝ :=
  let p : List ℝ :=
    [676.5203681218851, -1259.1392167224028, 771.32342877765313,
     -176.61502916214059, 12.507343278686905, -0.13857109526572012,
     9.9843695780195716e-6, 1.5056327351493116e-7]
  let z1 := z - 1
  let x := 0.99999999999980993 +
    (((List.range 8).map (fun i => p.getD i 0 / (z1 + i + 1))).sum)
  let t := z1 + 7 + 0.5
  Real.sqrt (2 * Real.pi) * t ^ (z1 + 0.5) * Real.exp (-t) * x

/-- `gamma` (part_008 lines 2311-2350): reflection formula below 0.5
(the recursive call then lands in the Lanczos branch, so one level of
unfolding is exact). -/
noncomputable def gammaJS (z : ℝ) : ℝ :=
  if z < 0.5 then Real.pi / (Real.sin (Real.pi * z) * gammaJSAux (1 - z))
  else gammaJSAux z

/-- Series loop of `lowerIncompleteGamma` (part_008 lines 2288-2308):
`while |term| > eps` with the hard iteration cap `n > 1000`; the fuel
1001 makes the cap the only possible early exit, exactly as in the
source. -/
noncomputable def ligLoop (s x : ℝ) : ℕ → ℝ → ℝ → ℕ → ℝ
  | 0, sum, _, _ => sum
  | fuel + 1, sum, term, n =>
    if |term| ≤ 1e-10 then sum
    else
      let sum2 := sum + term
      let term2 := term * (x / (s + n))
      if n + 1 > 1000 then sum2
      else ligLoop s x fuel sum2 term2 (n + 1)

/-- `lowerIncompleteGamma` (part_008 lines 2288-2308).  The NaN return
for `s <= 0` is represented through `JSVal`. -/
noncomputable def lowerIncompleteGamma (s x : ℝ) : JSVal :=
  if x ≤ 0 then JSVal.fin 0
  else if s ≤ 0 then JSVal.nan
  else JSVal.fin (s ^ (-1 : ℝ) * x ^ s * Real.exp (-x) * ligLoop s x 1001 0 (x / s) 1)

/-- `gammaCDF` (part_008 lines 1858-1869), clamped to `[0, 1]`. -/
noncomputable def gammaCDF (x shape rate : ℝ) : JSVal :=
  if x ≤ 0 then JSVal.fin 0
  else
    JSVal.jsMin1 (JSVal.jsMax0 (jsDiv (lowerIncompleteGamma shape (rate * x))
      (JSVal.fin (gammaJS shape))))

/-- One bin record of the filtering `calculateChiSquareTest`. -/
structure ChiBin where
  binMin : ℝ
  binMax : ℝ
  observed : ℕ
  expected : JSVal

/-- The bins built by `calculateChiSquareTest` of part_008
(lines 2034-2108): equal-width bins where the last bin ends at
`max + Number.EPSILON`; each observed count is an independent filter
over the data; the expected count follows the per-family switch (with
`n / numBins` as the default branch for unknown family names). -/
noncomputable def chiBinsStats (data : List ℝ) (distributionType : String)
    (params : List (String × ℝ)) (numBins : ℕ) : List ChiBin :=
  let n : ℝ := data.length
  let mn := listMin data
  let mx := listMax data
  let w := (mx - mn) / numBins
  (List.range numBins).map (fun i : ℕ =>
    let binMin := mn + (i : ℝ) * w
    let binMax := if i = numBins - 1 then mx + jsEpsilon else binMin + w
    let observed := (data.filter (fun v => binMin ≤ v ∧ v < binMax)).length
    let expected : JSVal :=
      if distributionType = "normal" then
        let mean := paramOr params "mean" (listMean data)
        let std := paramOr params "std" (listStd data)
        JSVal.fin (n * (normalCDF ((binMax - mean) / std) - normalCDF ((binMin - mean) / std)))
      else if distributionType = "exponential" then
        let lambda := paramOr params "lambda" (1 / listMean data)
        JSVal.fin (n * ((1 - Real.exp (-lambda * binMax)) - (1 - Real.exp (-lambda * binMin))))
      else if distributionType = "uniform" then
        let a := paramOr params "a" mn
        let b := paramOr params "b" mx
        JSVal.fin (n * max 0 (min 1 ((binMax - a) / (b - a)) - max 0 ((binMin - a) / (b - a))))
      else if distributionType = "poisson" then
        let lambda := paramOr params "lambda" 1
        JSVal.fin (n * (poissonCDF ⌊binMax⌋ lambda - poissonCDF (⌊binMin⌋ - 1) lambda))
      else if distributionType = "gamma" then
        let shape := paramOr params "shape" 1
        let rate := paramOr params "rate" 1
        jsSub (JSVal.jsScale n (gammaCDF binMax shape rate))
          (JSVal.jsScale n (gammaCDF binMin shape rate))
      else if distributionType = "binomial" then
        let nParams := paramOr params "n" 10
        let p := paramOr params "p" 0.5
        JSVal.fin (n * (binomialCDF (min ⌊(nParams : ℝ)⌋ ⌊binMax⌋) ⌊nParams⌋ p
          - binomialCDF (max 0 (⌊binMin⌋ - 1)) ⌊nParams⌋ p))
      else JSVal.fin (n / numBins)
    { binMin := binMin, binMax := binMax, observed := observed, expected := expected })

/-- Result record of the filtering `calculateChiSquareTest`; only the
fields the verified statements consume are kept (statistic and p value
are functions of `bins` and `degreesOfFreedom` and add nothing to the
frequency-sum property under study). -/
structure ChiSquareStatsResult where
  degreesOfFreedom : ℤ
  bins : List ChiBin

/-- `v >= c` comparison of a JavaScript number with a real constant. -/
noncomputable def jsGeR (v : JSVal) (c : ℝ) : Bool :=
  match v with
  | JSVal.nan => false
  | JSVal.negInf => false
  | JSVal.posInf => true
  | JSVal.fin x => decide (x ≥ c)

/-- `calculateChiSquareTest` of part_008 (lines 2028-2134).  Bins whose
expected frequency is below 5 are FILTERED OUT (`validBins`); the
filtered list replaces the original only when at least 5 bins survive,
otherwise all bins are kept.  No merging into neighbours happens in
this copy. -/
noncomputable def calculateChiSquareTestStats (data : List ℝ)
    (distributionType : String) (params : List (String × ℝ))
    (numBins : ℕ) : ChiSquareStatsResult :=
  let bins := chiBinsStats data distributionType params numBins
  let validBins := bins.filter (fun b => jsGeR b.expected 5)
  let mergedBins := if validBins.length < 5 then bins else validBins
  let estimatedParams : ℤ := params.length
  { degreesOfFreedom := (mergedBins.length : ℤ) - 1 - estimatedParams,
    bins := mergedBins }

/-! ## Claim C9 -/

/-- C9: for every non-empty sample, `calculateMLE(data, "normal")` and
`calculateMoM(data, "normal")` return identical mean/std estimates
(the two switch branches are the same closed form). -/
theorem mle_mom_normal_agree (data : List ℝ) (_h : data ≠ []) :
    calculateMLE data "normal" = calculateMoM data "normal" := rfl

/-- Witness for C9 at the sample `[1, 2, 3]`. -/
theorem mle_mom_normal_agree_witness :
    ([1, 2, 3] : List ℝ) ≠ [] ∧
      calculateMLE [1, 2, 3] "normal" = calculateMoM [1, 2, 3] "normal" :=
  ⟨by simp, mle_mom_normal_agree [1, 2, 3] (by simp)⟩

/-! ## Claim C7 -/

/-- C7 counterexample: the error-function approximation does not vanish
at 0: `erf 0` is exactly `10⁻⁹` (the five coefficients sum to
`0.999999999`, not 1), so `normalCDF 0` is `0.5 + 5·10⁻¹⁰`, not 0.5. -/
theorem erf_zero_counterexample :
    erf 0 = 1 / 1000000000 ∧ normalCDF 0 = 1 / 2 + 1 / 2000000000 ∧
      erf 0 ≠ 0 ∧ normalCDF 0 ≠ 1 / 2 := by
  have h0 : erf 0 = 1 / 1000000000 := by
    simp only [erf]
    norm_num
  refine ⟨h0, ?_, by rw [h0]; norm_num, ?_⟩
  · simp only [normalCDF, zero_div, h0]
    norm_num
  · simp only [normalCDF, zero_div, h0]
    norm_num

/-- C7 amended: `erf(-x) = -erf(x)` holds for every nonzero `x`; at 0
the approximation returns exactly `10⁻⁹` rather than 0, and
`normalCDF 0 = 0.5 + 5·10⁻¹⁰` rather than 0.5. -/
theorem erf_odd_and_center :
    (∀ x : ℝ, x ≠ 0 → erf (-x) = -erf x) ∧
      erf 0 = 1 / 1000000000 ∧ normalCDF 0 = 1 / 2 + 1 / 2000000000 := by
  refine ⟨fun x hx => ?_, ?_, ?_⟩
  · simp only [erf, abs_neg]
    rcases lt_or_gt_of_ne hx with h | h
    · rw [if_pos (by linarith : -x ≥ 0), if_neg (by linarith : ¬ x ≥ 0)]
      ring
    · rw [if_neg (by linarith : ¬ -x ≥ 0), if_pos (by linarith : x ≥ 0)]
      ring
  · simp only [erf]; norm_num
  · simp only [normalCDF, zero_div, erf]; norm_num

/-- Witness for the hypothesis of C7 amended, at `x = 1`. -/
theorem erf_odd_and_center_witness :
    (1 : ℝ) ≠ 0 ∧ erf (-1) = -erf 1 :=
  ⟨by norm_num, erf_odd_and_center.1 1 (by norm_num)⟩

/-! ## Claim C10 -/

/-- C10 counterexample: for the paired two-sample confidence interval,
an empty first array with a non-empty second array is a
different-length pair, yet the function throws the empty-data error
(the emptiness check precedes the length check), not the
length-mismatch error. -/
theorem paired_empty_counterexample :
    ([] : List ℝ).length ≠ ([1] : List ℝ).length ∧
      calculateTwoSampleConfidenceInterval [] [1] (95 / 100) .paired
        = .error .emptyData ∧
      (Except.error .emptyData : Except StatError TwoSampleCIResult)
        ≠ .error .lengthMismatch := by
  refine ⟨by simp, ?_, by simp⟩
  simp [calculateTwoSampleConfidenceInterval]

/-- C10 amended: every embedded descriptive statistic throws the
empty-data error on the empty array; `calculateDifferences` throws the
length-mismatch error on any unequal-length pair; the paired
two-sample confidence interval throws the length-mismatch error on
unequal-length pairs of NON-EMPTY arrays (when either array is empty
the empty-data error takes precedence). -/
theorem error_taxonomy :
    calculateMean ([] : List ℝ) = .error .emptyData ∧
    calculateMedian ([] : List ℝ) = .error .emptyData ∧
    calculateMode ([] : List ℝ) = .error .emptyData ∧
    calculateVariance ([] : List ℝ) = .error .emptyData ∧
    calculateStd ([] : List ℝ) = .error .emptyData ∧
    calculateSkewness ([] : List ℝ) = .error .emptyData ∧
    calculateKurtosis ([] : List ℝ) = .error .emptyData ∧
    calculateQuartiles ([] : List ℝ) = .error .emptyData ∧
    (∀ d1 d2 : List ℝ, d1.length ≠ d2.length →
      calculateDifferences d1 d2 = .error .lengthMismatch) ∧
    (∀ (d1 d2 : List ℝ) (level : ℝ), d1 ≠ [] → d2 ≠ [] →
      d1.length ≠ d2.length →
      calculateTwoSampleConfidenceInterval d1 d2 level .paired
        = .error .lengthMismatch) := by
  refine ⟨rfl, rfl, rfl, rfl, rfl, rfl, rfl, rfl, ?_, ?_⟩
  · intro d1 d2 hne
    simp [calculateDifferences, hne]
  · intro d1 d2 level h1 h2 hne
    have l1 : d1.length ≠ 0 := by simpa [List.length_eq_zero] using h1
    have l2 : d2.length ≠ 0 := by simpa [List.length_eq_zero] using h2
    simp [calculateTwoSampleConfidenceInterval, l1, l2, hne]

/-- Witness for the hypotheses of C10 amended, at `[1]` and `[1, 2]`. -/
theorem error_taxonomy_witness :
    calculateDifferences [1] [1, 2] = .error .lengthMismatch ∧
      calculateTwoSampleConfidenceInterval [1] [1, 2] (95 / 100) .paired
        = .error .lengthMismatch :=
  ⟨error_taxonomy.2.2.2.2.2.2.2.2.1 [1] [1, 2] (by simp),
   error_taxonomy.2.2.2.2.2.2.2.2.2 [1] [1, 2] (95 / 100) (by simp) (by simp) (by simp)⟩

/-! ## Claim C8 -/

/-- C8 amended: `performTTest` and `performZTest` decide rejection by a
NON-strict comparison of the test statistic against the critical value
(`<=` for left-tailed, `>=` for right-tailed and, on the absolute
statistic, for two-tailed); the p-value is not consulted. -/
theorem rejection_nonstrict (data : List ℝ) (mu0 sigma alpha : ℝ)
    (tt : String) (h : data ≠ []) :
    (∃ r, performTTest data mu0 alpha tt = .ok r ∧
      (r.rejected = true ↔
        (if tt = "left" then r.tValue ≤ r.criticalValue
         else if tt = "right" then r.tValue ≥ r.criticalValue
         else |r.tValue| ≥ r.criticalValue))) ∧
    (∃ r, performZTest data mu0 sigma alpha tt = .ok r ∧
      (r.rejected = true ↔
        (if tt = "left" then JSVal.jsLeJ r.zValue r.criticalValue = true
         else if tt = "right" then JSVal.jsGeJ r.zValue r.criticalValue = true
         else JSVal.jsGeJ |r.zValue| r.criticalValue = true))) := by
  have hlen : ¬ data.length = 0 := by simpa [List.length_eq_zero] using h
  constructor
  · simp only [performTTest]
    rw [if_neg hlen]
    refine ⟨_, rfl, ?_⟩
    by_cases h1 : tt = "left" <;> by_cases h2 : tt = "right" <;>
      simp [h1, h2]
  · simp only [performZTest]
    rw [if_neg hlen]
    refine ⟨_, rfl, ?_⟩
    by_cases h1 : tt = "left" <;> by_cases h2 : tt = "right" <;>
      simp [h1, h2]

/-- Witness for the hypothesis of C8 amended, at `[1, 2, 3]`. -/
theorem rejection_nonstrict_witness :
    (∃ r, performTTest [1, 2, 3] 0 (1 / 20) "two" = .ok r ∧
      (r.rejected = true ↔ |r.tValue| ≥ r.criticalValue)) := by
  have h := (rejection_nonstrict [1, 2, 3] 0 1 (1 / 20) "two" (by simp)).1
  simpa using h

/-- C8 counterexample: with sample `[0, 2]` and
`mu0 = 1 - 6.353 * sqrt 2` the t statistic equals the critical value
12.706 exactly, and the test REJECTS (`rejected = true`) although the
statistic is not strictly beyond the critical value — so rejection is
not decided by a strict inequality. -/
theorem rejection_strict_counterexample :
    ∃ r, performTTest [0, 2] (1 - 6.353 * Real.sqrt 2) (1 / 10) "two" = .ok r ∧
      r.tValue = 12.706 ∧ r.criticalValue = 12.706 ∧ r.rejected = true ∧
      ¬ (|r.tValue| > r.criticalValue) := by
  have hm : listMean [0, 2] = 1 := by norm_num [listMean]
  have hv : listVariance [0, 2] = 1 := by
    norm_num [listVariance, listMean]
  have hs : listStd [0, 2] = 1 := by rw [listStd, hv, Real.sqrt_one]
  have hsqrt2 : Real.sqrt 2 * Real.sqrt 2 = 2 := Real.mul_self_sqrt (by norm_num)
  have htv : (listMean [0, 2] - (1 - 6.353 * Real.sqrt 2)) /
      (listStd [0, 2] / Real.sqrt (([0, 2] : List ℝ).length)) = 12.706 := by
    rw [hm, hs]
    have h2 : (([0, 2] : List ℝ).length : ℝ) = 2 := by norm_num
    rw [h2, sub_sub_cancel, one_div, div_eq_mul_inv, inv_inv, mul_assoc, hsqrt2]
    norm_num
  have hcv : getApproximateTCriticalValue (([0, 2] : List ℝ).length - 1)
      (1 - 1 / 10 / 2) = 12.706 := by
    have h95 : (1 : ℝ) - 1 / 10 / 2 = 0.95 := by norm_num
    have hk : findClosestDf (([0, 2] : List ℝ).length - 1) = 1 := by
      norm_num [findClosestDf, tTableKeys]
    rw [h95]
    simp only [getApproximateTCriticalValue, hk]
    norm_num [tRow95, List.lookup]
  simp only [performTTest]
  rw [if_neg (by norm_num)]
  have hL : ¬ ("two" : String) = "left" := by decide
  have hR : ¬ ("two" : String) = "right" := by decide
  refine ⟨_, rfl, ?_, ?_, ?_, ?_⟩
  · simpa using htv
  · simpa only [if_neg hL, if_neg hR] using hcv
  · simp only [if_neg hL, if_neg hR, decide_eq_true_iff]
    rw [htv, hcv, abs_of_nonneg (by norm_num : (0 : ℝ) ≤ 12.706)]
  · simp only [if_neg hL, if_neg hR]
    rw [htv, hcv, abs_of_nonneg (by norm_num : (0 : ℝ) ≤ 12.706)]
    norm_num

/-! ## Claim C2 -/

/-- C2 counterexample: for a left-tailed request, the companion
interval of `performTTest` has lower bound exactly `-Infinity` — it is
NOT a finite two-sided interval. -/
theorem companion_interval_counterexample :
    ∃ r, performTTest [1, 2, 3] 0 (1 / 20) "left" = .ok r ∧
      r.confidenceInterval.lower = JSVal.negInf ∧
      ∀ x : ℝ, r.confidenceInterval.lower ≠ JSVal.fin x := by
  simp only [performTTest]
  rw [if_neg (by norm_num)]
  refine ⟨_, rfl, ?_, ?_⟩
  · simp
  · intro x
    simp

/-- C2 amended: the companion interval of `performZTest`/`performTTest`
is a finite symmetric two-sided interval only for the two-sided
request; for a left-tailed request the lower bound is literal
`-Infinity` and for a right-tailed request the upper bound is literal
`+Infinity`.  All three share the same margin, built from the
two-sided (`alpha/2`) critical value. -/
theorem companion_interval_tails (data : List ℝ) (mu0 sigma alpha : ℝ)
    (h : data ≠ []) :
    (∃ r2 rl rr, performTTest data mu0 alpha "two" = .ok r2 ∧
      performTTest data mu0 alpha "left" = .ok rl ∧
      performTTest data mu0 alpha "right" = .ok rr ∧
      (∃ E : ℝ,
        E = getApproximateTCriticalValue (data.length - 1) (1 - alpha / 2)
          * (listStd data / Real.sqrt data.length) ∧
        r2.confidenceInterval =
          ⟨.fin (listMean data - E), .fin (listMean data + E)⟩ ∧
        rl.confidenceInterval = ⟨JSVal.negInf, .fin (listMean data + E)⟩ ∧
        rr.confidenceInterval = ⟨.fin (listMean data - E), JSVal.posInf⟩)) ∧
    (∃ z2 zl zr, performZTest data mu0 sigma alpha "two" = .ok z2 ∧
      performZTest data mu0 sigma alpha "left" = .ok zl ∧
      performZTest data mu0 sigma alpha "right" = .ok zr ∧
      (∃ E : JSVal,
        E = JSVal.jsMulR (JSVal.jsScale (Real.sqrt 2)
              (inverseErrorFunctionStats (2 * (1 - alpha / 2) - 1)))
            (sigma / Real.sqrt data.length) ∧
        z2.confidenceInterval =
          ⟨JSVal.jsSubR (listMean data) E, JSVal.jsAddR (listMean data) E⟩ ∧
        zl.confidenceInterval = ⟨JSVal.negInf, JSVal.jsAddR (listMean data) E⟩ ∧
        zr.confidenceInterval =
          ⟨JSVal.jsSubR (listMean data) E, JSVal.posInf⟩)) := by
  have hlen : ¬ data.length = 0 := by simpa [List.length_eq_zero] using h
  constructor
  · simp only [performTTest]
    rw [if_neg hlen, if_neg hlen, if_neg hlen]
    refine ⟨_, _, _, rfl, rfl, rfl, _, rfl, ?_, ?_, ?_⟩ <;> simp
  · simp only [performZTest]
    rw [if_neg hlen, if_neg hlen, if_neg hlen]
    refine ⟨_, _, _, rfl, rfl, rfl, _, rfl, ?_, ?_, ?_⟩ <;> simp

/-- Witness for the hypothesis of C2 amended, at `[1, 2, 3]`. -/
theorem companion_interval_tails_witness :
    ([1, 2, 3] : List ℝ) ≠ [] ∧
      (∃ r2 rl rr, performTTest [1, 2, 3] 0 (1 / 20) "two" = .ok r2 ∧
        performTTest [1, 2, 3] 0 (1 / 20) "left" = .ok rl ∧
        performTTest [1, 2, 3] 0 (1 / 20) "right" = .ok rr ∧
        (∃ E : ℝ,
          E = getApproximateTCriticalValue (([1, 2, 3] : List ℝ).length - 1)
            (1 - (1 / 20) / 2) * (listStd [1, 2, 3] / Real.sqrt ([1, 2, 3] : List ℝ).length) ∧
          r2.confidenceInterval =
            ⟨.fin (listMean [1, 2, 3] - E), .fin (listMean [1, 2, 3] + E)⟩ ∧
          rl.confidenceInterval = ⟨JSVal.negInf, .fin (listMean [1, 2, 3] + E)⟩ ∧
          rr.confidenceInterval = ⟨.fin (listMean [1, 2, 3] - E), JSVal.posInf⟩)) :=
  ⟨by simp, (companion_interval_tails [1, 2, 3] 0 1 (1 / 20) (by simp)).1⟩

/-! ## Claim C1 -/

/-- C1 amended: the part_008 `calculateConfidenceInterval` ignores the
`tailType` option entirely: the result is the same record for every
tail type, with `lower = mean - marginOfError` and
`upper = mean + marginOfError` (finite whenever the margin is) and
`marginOfError = criticalValue * standardError`; no infinite bound is
ever produced for a one-sided request. -/
theorem ci_ignores_tailtype (data : List ℝ) (level : ℝ) (isN kV : Bool)
    (pv : Option ℝ) (t t2 : TailType) (h : data ≠ []) :
    calculateConfidenceInterval data level ⟨isN, kV, pv, t⟩
      = calculateConfidenceInterval data level ⟨isN, kV, pv, t2⟩ ∧
    ∃ r, calculateConfidenceInterval data level ⟨isN, kV, pv, t⟩ = .ok r ∧
      r.lower = JSVal.jsSubR (listMean data) r.marginOfError ∧
      r.upper = JSVal.jsAddR (listMean data) r.marginOfError ∧
      r.marginOfError = JSVal.jsMulR r.criticalValue
        (if kV = true ∧ pv ≠ none
         then Real.sqrt (pv.getD 0) / Real.sqrt data.length
         else listStd data / Real.sqrt data.length) := by
  have hlen : ¬ data.length = 0 := by simpa [List.length_eq_zero] using h
  refine ⟨rfl, ?_⟩
  simp only [calculateConfidenceInterval]
  rw [if_neg hlen]
  exact ⟨_, rfl, by simp, by simp, by simp⟩

/-- Witness for the hypothesis of C1 amended, at `[1, 2, 3]` with a
left-tailed versus right-tailed request. -/
theorem ci_ignores_tailtype_witness :
    calculateConfidenceInterval [1, 2, 3] (95 / 100)
        ⟨false, false, none, .leftTailed⟩
      = calculateConfidenceInterval [1, 2, 3] (95 / 100)
        ⟨false, false, none, .rightTailed⟩ :=
  (ci_ignores_tailtype [1, 2, 3] (95 / 100) false false none
    .leftTailed .rightTailed (by simp)).1

/-- C1 counterexample: called on `[1, 2, 3]` at level 0.95 with
`tailType = left-tailed`, the function returns the finite lower bound
`2 - (sqrt(2/3)/sqrt 3) * 4.303` — not the claimed `-Infinity` — and a
finite upper bound rather than `+Infinity` for right-tailed requests
either (the same record is returned for every tail type). -/
theorem ci_left_tailed_counterexample :
    ∃ r, calculateConfidenceInterval [1, 2, 3] (95 / 100)
        ⟨false, false, none, .leftTailed⟩ = .ok r ∧
      r.lower = JSVal.fin (2 - Real.sqrt (2 / 3) / Real.sqrt 3 * 4.303) ∧
      r.lower ≠ JSVal.negInf ∧ r.upper ≠ JSVal.posInf := by
  have hmean : listMean [1, 2, 3] = 2 := by norm_num [listMean]
  have hvar : listVariance [1, 2, 3] = 2 / 3 := by
    norm_num [listVariance, listMean]
  have hstd : listStd [1, 2, 3] = Real.sqrt (2 / 3) := by rw [listStd, hvar]
  have hk : findClosestDf 2 = 2 := by
    norm_num [findClosestDf, tTableKeys]
  have hcrit : getApproximateTCriticalValue 2 (19 / 20) = 4303 / 1000 := by
    simp only [getApproximateTCriticalValue, hk]
    norm_num [tRow95, List.lookup]
    rfl
  simp only [calculateConfidenceInterval]
  rw [if_neg (by norm_num)]
  refine ⟨_, rfl, ?_, ?_, ?_⟩
  · simp only [JSVal.jsMulR, JSVal.jsScale, JSVal.jsSubR]
    norm_num [hcrit, hmean, hstd]
  · simp [JSVal.jsMulR, JSVal.jsScale, JSVal.jsSubR]
  · simp [JSVal.jsMulR, JSVal.jsScale, JSVal.jsAddR]

/-! ## Claim C4 -/

/-- C4 amended: whenever the computed margin of error is a (finite)
real number `E`, the interval returned by
`calculateConfidenceInterval` is `[mean - E, mean + E]`: it is exactly
symmetric about the sample mean with width `2 * E`.  The width is
however NOT strictly increasing in the confidence level (see the
counterexample with equal widths at levels 0.5 and 0.6). -/
theorem ci_two_tailed_symmetry (data : List ℝ) (level : ℝ)
    (opts : CIOptions) (E : ℝ) (h : data ≠ []) :
    ∀ r, calculateConfidenceInterval data level opts = .ok r →
      r.marginOfError = .fin E →
      ∃ l u, r.lower = .fin l ∧ r.upper = .fin u ∧
        u - listMean data = listMean data - l ∧ u - l = 2 * E := by
  have hlen : ¬ data.length = 0 := by simpa [List.length_eq_zero] using h
  intro r hr hE
  simp only [calculateConfidenceInterval] at hr
  rw [if_neg hlen] at hr
  injection hr with hr2
  subst hr2
  dsimp only at hE ⊢
  rw [hE]
  exact ⟨listMean data - E, listMean data + E, by simp [JSVal.jsSubR],
    by simp [JSVal.jsAddR], by ring, by ring⟩

/-- Witness for the hypotheses of C4 amended, at `[1, 2, 3]`,
level 0.95, default options. -/
theorem ci_two_tailed_symmetry_witness :
    ∃ l u r, calculateConfidenceInterval [1, 2, 3] (95 / 100)
        ⟨false, false, none, .twoTailed⟩ = .ok r ∧
      r.lower = .fin l ∧ r.upper = .fin u ∧
      u - listMean [1, 2, 3] = listMean [1, 2, 3] - l ∧
      u - l = 2 * (Real.sqrt (2 / 3) / Real.sqrt 3 * (4303 / 1000)) := by
  have hvar : listVariance [1, 2, 3] = 2 / 3 := by
    norm_num [listVariance, listMean]
  have hstd : listStd [1, 2, 3] = Real.sqrt (2 / 3) := by rw [listStd, hvar]
  have hk : findClosestDf 2 = 2 := by
    norm_num [findClosestDf, tTableKeys]
  have hcrit : getApproximateTCriticalValue 2 (19 / 20) = 4303 / 1000 := by
    simp only [getApproximateTCriticalValue, hk]
    norm_num [tRow95, List.lookup]
    rfl
  obtain ⟨r, hr, hE⟩ : ∃ r, calculateConfidenceInterval [1, 2, 3] (95 / 100)
      ⟨false, false, none, .twoTailed⟩ = .ok r ∧
      r.marginOfError = .fin (Real.sqrt (2 / 3) / Real.sqrt 3 * (4303 / 1000)) := by
    simp only [calculateConfidenceInterval]
    rw [if_neg (by norm_num)]
    refine ⟨_, rfl, ?_⟩
    simp only [JSVal.jsMulR, JSVal.jsScale]
    norm_num [hcrit, hstd]
  obtain ⟨l, u, h1, h2, h3, h4⟩ := ci_two_tailed_symmetry [1, 2, 3] (95 / 100)
    ⟨false, false, none, .twoTailed⟩ (Real.sqrt (2 / 3) / Real.sqrt 3 * (4303 / 1000))
    (by simp) r hr hE
  exact ⟨l, u, r, hr, h1, h2, h3, h4⟩

/-- C4 counterexample: for fixed data `[1, 2, 3]` the confidence levels
0.5 and 0.6 give IDENTICAL intervals (both levels are missing from the
hard-coded t table, so the lookup falls back to the 0.95 column), so
the width `upper - lower` is not strictly increasing in the confidence
level over `(0, 1)`. -/
theorem ci_width_not_increasing :
    ∃ r1 r2, calculateConfidenceInterval [1, 2, 3] (1 / 2)
        ⟨false, false, none, .twoTailed⟩ = .ok r1 ∧
      calculateConfidenceInterval [1, 2, 3] (3 / 5)
        ⟨false, false, none, .twoTailed⟩ = .ok r2 ∧
      (1 / 2 : ℝ) < 3 / 5 ∧
      r1.marginOfError = r2.marginOfError ∧
      r1.lower = r2.lower ∧ r1.upper = r2.upper := by
  have hcrit : getApproximateTCriticalValue (([1, 2, 3] : List ℝ).length - 1) (1 / 2)
      = getApproximateTCriticalValue (([1, 2, 3] : List ℝ).length - 1) (3 / 5) := by
    simp only [getApproximateTCriticalValue]
    norm_num
  simp only [calculateConfidenceInterval]
  rw [if_neg (by norm_num), if_neg (by norm_num)]
  refine ⟨_, _, rfl, rfl, by norm_num, ?_, ?_, ?_⟩ <;>
    dsimp only <;> rw [hcrit] <;> norm_num

/-! ## Claim C5 -/

/-- The square-root argument of the inverse-error-function formula is
negative at `x = 1/2`: `1.140012 * log (4/3) < 2 * log 2`. -/
theorem ierfSqrtArgNegHalf :
    -Real.log (3 / 4) - 2 * Real.log 2 - 0.140012 * Real.log (3 / 4) < 0 := by
  have h1 : Real.log (4 / 3) ≤ 4 / 3 - 1 :=
    Real.log_le_sub_one_of_pos (by norm_num)
  have h2 : Real.log (3 / 4) = -Real.log (4 / 3) := by
    rw [show (3 / 4 : ℝ) = (4 / 3)⁻¹ by norm_num, Real.log_inv]
  have h3 : (0.6931471803 : ℝ) < Real.log 2 := Real.log_two_gt_d9
  rw [h2]
  nlinarith

/-- The square-root argument of the inverse-error-function formula is
negative at `x = 4/5`: `1.140012 * log (25/9) < 2 * log 2`. -/
theorem ierfSqrtArgNegFourFifth :
    -Real.log (9 / 25) - 2 * Real.log 2 - 0.140012 * Real.log (9 / 25) < 0 := by
  have hL : Real.log (25 / 9) ≤ 6 / 5 := by
    rw [Real.log_le_iff_le_exp (by norm_num)]
    have h1 : Real.exp (6 / 5) = Real.exp 1 * Real.exp (1 / 5) := by
      rw [← Real.exp_add]; norm_num
    have h2 : (2.7182818283 : ℝ) ≤ Real.exp 1 := le_of_lt Real.exp_one_gt_d9
    have h3 : (1 : ℝ) + 1 / 5 ≤ Real.exp (1 / 5) := by
      have := Real.add_one_le_exp (1 / 5 : ℝ)
      linarith
    have h4 : (2.7182818283 : ℝ) * (1 + 1 / 5) ≤ Real.exp 1 * Real.exp (1 / 5) := by
      apply mul_le_mul h2 h3 (by norm_num) (le_trans (by norm_num) h2)
    rw [h1]
    nlinarith
  have h2 : Real.log (9 / 25) = -Real.log (25 / 9) := by
    rw [show (9 / 25 : ℝ) = (25 / 9)⁻¹ by norm_num, Real.log_inv]
  have h3 : (0.6931471803 : ℝ) < Real.log 2 := Real.log_two_gt_d9
  rw [h2]
  nlinarith

/-- The statistics-utility inverse error function returns NaN at 4/5. -/
theorem ierfStatsFourFifthNan :
    inverseErrorFunctionStats (4 / 5) = JSVal.nan := by
  simp only [inverseErrorFunctionStats]
  rw [show |(4 / 5 : ℝ)| = 4 / 5 by norm_num]
  rw [if_neg (by norm_num), if_pos (by norm_num : (4 / 5 : ℝ) ≥ 0)]
  rw [show (1 : ℝ) - 4 / 5 * (4 / 5) = 9 / 25 by norm_num]
  simp only [JSVal.jsSqrt, JSVal.jsScale]
  rw [if_pos ierfSqrtArgNegFourFifth]

/-- C5: inside the documented domain `(-1, 1)` — e.g. at `x = 1/2` —
the statistics-utility copy of the inverse error function takes the
square root of a negative number and returns NaN, while the
power-analysis copy guards the same case and returns `+Infinity`;
consequently `calculateConfidenceInterval` with known variance at the
non-tabulated confidence level 0.8 returns NaN for the critical value,
the margin of error and both interval bounds. -/
theorem inverse_erf_nan_vs_guard :
    (0 < (1 / 2 : ℝ) ∧ (1 / 2 : ℝ) < 1) ∧
    inverseErrorFunctionStats (1 / 2) = JSVal.nan ∧
    inverseErrorFunctionPower (1 / 2) = JSVal.posInf ∧
    ∃ r, calculateConfidenceInterval [1, 2, 3] (4 / 5)
        ⟨false, true, some 1, .twoTailed⟩ = .ok r ∧
      r.criticalValue = JSVal.nan ∧ r.marginOfError = JSVal.nan ∧
      r.lower = JSVal.nan ∧ r.upper = JSVal.nan := by
  refine ⟨⟨by norm_num, by norm_num⟩, ?_, ?_, ?_⟩
  · simp only [inverseErrorFunctionStats]
    rw [show |(1 / 2 : ℝ)| = 1 / 2 by norm_num]
    rw [if_neg (by norm_num), if_pos (by norm_num : (1 / 2 : ℝ) ≥ 0)]
    rw [show (1 : ℝ) - 1 / 2 * (1 / 2) = 3 / 4 by norm_num]
    simp only [JSVal.jsSqrt, JSVal.jsScale]
    rw [if_pos ierfSqrtArgNegHalf]
  · simp only [inverseErrorFunctionPower]
    rw [show |(1 / 2 : ℝ)| = 1 / 2 by norm_num]
    rw [if_neg (by norm_num), if_pos (by norm_num : (1 / 2 : ℝ) ≥ 0)]
    rw [if_neg (by norm_num : ¬ ((1 : ℝ) - 1 / 2 * (1 / 2)) ≤ 0)]
    rw [show (1 : ℝ) - 1 / 2 * (1 / 2) = 3 / 4 by norm_num]
    rw [if_pos ierfSqrtArgNegHalf]
  · simp only [calculateConfidenceInterval, zCriticalSwitch]
    rw [if_neg (by norm_num)]
    have hArg : (2 * (1 - (1 - 4 / 5) / 2) - 1 : ℝ) = 4 / 5 := by norm_num
    refine ⟨_, rfl, ?_, ?_, ?_, ?_⟩ <;>
      simp only [if_pos rfl, hArg, ierfStatsFourFifthNan] <;>
      norm_num [JSVal.jsAbs, JSVal.jsMulR, JSVal.jsScale, JSVal.jsSubR, JSVal.jsAddR]

/-! ## Claim C3: numeric groundwork

The approximate quantile used by the power module at
`alpha = beta = 0.05` (right-tailed) is
`sqrt 2 * sqrt (1.140012 * log (100/19) - 2 * log 2)`; the bounds below
pin `log (100/19)` tightly enough to evaluate the ceiling of the
sample-size formula and to bound the resulting power. -/

/-- Taylor upper bound: `exp 0.6547 ≤ 1.9246`. -/
theorem expSixtyFiveUb : Real.exp 0.6547 ≤ 1.9246 := by
  have h := Real.exp_bound' (x := 0.6547) (by norm_num) (by norm_num)
    (n := 8) (by norm_num)
  refine le_trans h ?_
  norm_num [Finset.sum_range_succ, Nat.factorial]

/-- Taylor lower bound: `2.1447 ≤ exp 0.7642`. -/
theorem expSeventySixLb : (2.1447 : ℝ) ≤ Real.exp 0.7642 := by
  have h := Real.sum_le_exp_of_nonneg (x := 0.7642) (by norm_num) 5
  refine le_trans ?_ h
  norm_num [Finset.sum_range_succ, Nat.factorial]

/-- `1.6547 ≤ log (100/19)`. -/
theorem logHundredNineteenLb : (1.6547 : ℝ) ≤ Real.log (100 / 19) := by
  rw [Real.le_log_iff_exp_le (by norm_num)]
  have h1 : Real.exp 1.6547 = Real.exp 1 * Real.exp 0.6547 := by
    rw [← Real.exp_add]; norm_num
  rw [h1]
  have h2 : Real.exp 1 * Real.exp 0.6547 ≤ 2.7182818286 * 1.9246 :=
    mul_le_mul (le_of_lt Real.exp_one_lt_d9) expSixtyFiveUb
      (le_of_lt (Real.exp_pos _)) (by norm_num)
  refine le_trans h2 (by norm_num)

/-- `log (100/19) ≤ 1.7642`. -/
theorem logHundredNineteenUb : Real.log (100 / 19) ≤ 1.7642 := by
  rw [Real.log_le_iff_le_exp (by norm_num)]
  have h1 : Real.exp 1.7642 = Real.exp 1 * Real.exp 0.7642 := by
    rw [← Real.exp_add]; norm_num
  rw [h1]
  have h2 : (2.7182818283 : ℝ) * 2.1447 ≤ Real.exp 1 * Real.exp 0.7642 :=
    mul_le_mul (le_of_lt Real.exp_one_gt_d9) expSeventySixLb
      (by norm_num) (le_of_lt (Real.exp_pos _))
  refine le_trans (by norm_num) h2

/-- The square-root argument of the approximate 0.95 quantile lies in
`(1/2, 5/8]`. -/
theorem sqrtArgNineBounds :
    1 / 2 < -Real.log (19 / 100) - 2 * Real.log 2
        - 0.140012 * Real.log (19 / 100) ∧
      -Real.log (19 / 100) - 2 * Real.log 2
        - 0.140012 * Real.log (19 / 100) ≤ 5 / 8 := by
  have hinv : Real.log (19 / 100) = -Real.log (100 / 19) := by
    rw [show (19 / 100 : ℝ) = (100 / 19)⁻¹ by norm_num, Real.log_inv]
  have hlo := logHundredNineteenLb
  have hhi := logHundredNineteenUb
  have h2lo : (0.6931471803 : ℝ) < Real.log 2 := Real.log_two_gt_d9
  have h2hi : Real.log 2 < 0.6931471808 := Real.log_two_lt_d9
  rw [hinv]
  constructor <;> nlinarith

/-- Evaluation of the guarded inverse error function at `9/10`: all
three guards pass and the value is
`sqrt (1.140012 * log (100/19) - 2 * log 2)`, written below in the
source shape. -/
theorem ierfPowerNineTenth :
    inverseErrorFunctionPower (9 / 10) =
      JSVal.fin (Real.sqrt (-Real.log (19 / 100) - 2 * Real.log 2
        - 0.140012 * Real.log (19 / 100))) := by
  have hpos := sqrtArgNineBounds.1
  simp only [inverseErrorFunctionPower]
  rw [show |(9 / 10 : ℝ)| = 9 / 10 by norm_num]
  rw [if_neg (by norm_num), if_pos (by norm_num : (9 / 10 : ℝ) ≥ 0),
    if_neg (by norm_num : ¬ ((1 : ℝ) - 9 / 10 * (9 / 10)) ≤ 0)]
  rw [show (1 : ℝ) - 9 / 10 * (9 / 10) = 19 / 100 by norm_num]
  rw [if_neg (not_lt.mpr (by linarith))]
  rw [if_pos (by norm_num : (9 / 10 : ℝ) ≥ 0), one_mul]

/-- C3 failing input, sample-size half: at `mu1 = 1`, `mu0 = 0`,
`sigma = 1`, `alpha = beta = 0.05`, right-tailed, the computed sample
size is exactly 5 (the unrounded value `8 * sqrtArg` lies in `(4, 5]`). -/
theorem sampleSizeFive :
    calculateSampleSizeForPower 1 0 1 (1 / 20) (1 / 20) "right"
      = JSVal.fin 5 := by
  have harg : (2 * (1 - 1 / 20) - 1 : ℝ) = 9 / 10 := by norm_num
  simp only [calculateSampleSizeForPower]
  rw [if_neg (by decide : ¬ ("right" : String) = "two"), harg, ierfPowerNineTenth]
  simp only [JSVal.jsScale, JSVal.jsAdd, JSVal.jsMulR, JSVal.jsDivR,
    JSVal.jsSq, JSVal.jsCeil]
  have habs : |(1 : ℝ) - 0| = 1 := by norm_num
  rw [habs]
  have hb := sqrtArgNineBounds
  set E : ℝ := -Real.log (19 / 100) - 2 * Real.log 2
    - 0.140012 * Real.log (19 / 100) with hE
  clear_value E
  have hE0 : 0 ≤ E := le_of_lt (lt_trans (by norm_num) hb.1)
  have hsq : ((1 * (Real.sqrt 2 * Real.sqrt E + Real.sqrt 2 * Real.sqrt E)) / 1) ^ 2
      = 8 * E := by
    rw [one_mul, div_one]
    have h2 : Real.sqrt 2 ^ 2 = 2 := Real.sq_sqrt (by norm_num)
    have hEs : Real.sqrt E ^ 2 = E := Real.sq_sqrt hE0
    nlinarith [h2, hEs]
  rw [hsq]
  have hceil : ⌈(8 : ℝ) * E⌉ = 5 := by
    rw [Int.ceil_eq_iff]
    constructor
    · push_cast
      nlinarith [hb.1]
    · push_cast
      nlinarith [hb.2]
  rw [hceil]
  norm_num

/-- Numeric core bound for the power evaluation: with the rational
factor `t` in its window and the exponential factor at least 0.4657,
the erf formula value stays below 0.9. -/
theorem hornerWindowBound (t e : ℝ) (ht1 : 0.7774 ≤ t) (ht2 : t ≤ 0.7943)
    (he1 : 0.4657 ≤ e) :
    1 - ((((1.061405429 * t + -1.453152027) * t + 1.421413741) * t
      + -0.284496736) * t + 0.254829592) * t * e < 0.9 := by
  have ht0 : (0 : ℝ) ≤ t := le_trans (by norm_num) ht1
  have h2u : t ^ 2 ≤ 0.7943 ^ 2 := pow_le_pow_left ht0 ht2 2
  have h3l : (0.7774 : ℝ) ^ 3 ≤ t ^ 3 := pow_le_pow_left (by norm_num) ht1 3
  have h4u : t ^ 4 ≤ 0.7943 ^ 4 := pow_le_pow_left ht0 ht2 4
  have h5l : (0.7774 : ℝ) ^ 5 ≤ t ^ 5 := pow_le_pow_left (by norm_num) ht1 5
  have hP : (0.409 : ℝ) ≤ ((((1.061405429 * t + -1.453152027) * t
      + 1.421413741) * t + -0.284496736) * t + 0.254829592) * t := by
    nlinarith [h2u, h3l, h4u, h5l, ht1, ht2]
  have hprod : (0.409 : ℝ) * 0.4657 ≤
      ((((1.061405429 * t + -1.453152027) * t + 1.421413741) * t
        + -0.284496736) * t + 0.254829592) * t * e :=
    mul_le_mul hP he1 (by norm_num) (le_trans (by norm_num) hP)
  nlinarith [hprod]

/-- The erf approximation stays below 0.9 on the argument window
`[0.79056, 0.874034]`. -/
theorem erfWindowLt (y : ℝ) (h1 : 0.79056 ≤ y) (h2 : y ≤ 0.874034) :
    erf y < 0.9 := by
  have hy0 : (0 : ℝ) ≤ y := le_trans (by norm_num) h1
  simp only [erf, abs_of_nonneg hy0]
  rw [if_pos (by linarith : y ≥ 0), one_mul]
  have hdpos : (0 : ℝ) < 1 + 0.3275911 * y := by nlinarith
  have htlo : (0.7774 : ℝ) ≤ 1 / (1 + 0.3275911 * y) := by
    rw [le_div_iff hdpos]
    nlinarith
  have hthi : 1 / (1 + 0.3275911 * y) ≤ 0.7943 := by
    rw [div_le_iff hdpos]
    nlinarith
  have hexp1 : Real.exp 0.763936 ≤ 2.1468 := by
    have h := Real.exp_bound' (x := 0.763936) (by norm_num) (by norm_num)
      (n := 10) (by norm_num)
    refine le_trans h ?_
    norm_num [Finset.sum_range_succ, Nat.factorial]
  have hexp : (0.4657 : ℝ) ≤ Real.exp (-y * y) := by
    have hmono : Real.exp (-(0.763936 : ℝ)) ≤ Real.exp (-y * y) := by
      apply Real.exp_le_exp.mpr
      nlinarith
    refine le_trans ?_ hmono
    rw [Real.exp_neg]
    calc (0.4657 : ℝ) ≤ (2.1468 : ℝ)⁻¹ := by norm_num
      _ ≤ (Real.exp 0.763936)⁻¹ := by
          exact inv_le_inv_of_le (Real.exp_pos _) hexp1
  exact hornerWindowBound _ _ htlo hthi hexp

/-- C3 (code bug): at `mu1 = 1`, `mu0 = 0`, `sigma = 1`,
`alpha = beta = 0.05`, right-tailed, the sample size computed by
`calculateSampleSizeForPower` is 5, but feeding it back into
`calculateZTestPower` yields a power STRICTLY BELOW the target
`1 - beta = 0.95` (the actual value is about 0.890): the round-trip
guarantee fails because the inverse-error-function approximation
grossly underestimates the normal quantiles. -/
theorem power_roundtrip_failure :
    calculateSampleSizeForPower 1 0 1 (1 / 20) (1 / 20) "right"
      = JSVal.fin 5 ∧
    ∃ p : ℝ, calculateZTestPower 1 0 1 5 (1 / 20) "right" = JSVal.fin p ∧
      p < 1 - 1 / 20 := by
  refine ⟨sampleSizeFive, ?_⟩
  have harg : (2 * (1 - 1 / 20) - 1 : ℝ) = 9 / 10 := by norm_num
  simp only [calculateZTestPower]
  rw [if_neg (by decide : ¬ ("right" : String) = "two")]
  simp only [if_true]
  rw [harg, ierfPowerNineTenth]
  simp only [JSVal.jsScale, JSVal.jsNeg, JSVal.jsAddR, jsNormalCDF,
    JSVal.jsMax0, JSVal.jsMin1]
  refine ⟨_, rfl, ?_⟩
  have hb := sqrtArgNineBounds
  set E : ℝ := -Real.log (19 / 100) - 2 * Real.log 2
    - 0.140012 * Real.log (19 / 100) with hE
  clear_value E
  have hE0 : (0 : ℝ) ≤ E := le_of_lt (lt_trans (by norm_num) hb.1)
  have hsimp : ((1 : ℝ) - 0) / (1 / Real.sqrt 5) + -(Real.sqrt 2 * Real.sqrt E)
      = Real.sqrt 5 - Real.sqrt 2 * Real.sqrt E := by
    rw [sub_zero, one_div_one_div]
    ring
  rw [hsimp]
  have h2pos : (0 : ℝ) < Real.sqrt 2 := Real.sqrt_pos.mpr (by norm_num)
  have h2lo : (1.4142135 : ℝ) ≤ Real.sqrt 2 :=
    (Real.le_sqrt (by norm_num) (by norm_num)).mpr (by norm_num)
  have h2hi : Real.sqrt 2 ≤ 1.4142136 :=
    (Real.sqrt_le_left (by norm_num)).mpr (by norm_num)
  have h5lo : (2.2360679 : ℝ) ≤ Real.sqrt 5 :=
    (Real.le_sqrt (by norm_num) (by norm_num)).mpr (by norm_num)
  have h5hi : Real.sqrt 5 ≤ 2.2360680 :=
    (Real.sqrt_le_left (by norm_num)).mpr (by norm_num)
  have hsEhi : Real.sqrt E ≤ 0.7905695 :=
    (Real.sqrt_le_left (by norm_num)).mpr (by nlinarith [hb.2])
  have hsElo : (0.7071067 : ℝ) ≤ Real.sqrt E :=
    (Real.le_sqrt (by norm_num) hE0).mpr (by nlinarith [hb.1])
  have hprodhi : Real.sqrt 2 * Real.sqrt E ≤ 1.4142136 * 0.7905695 :=
    mul_le_mul h2hi hsEhi (Real.sqrt_nonneg E) (by norm_num)
  have hprodlo : (1.4142135 : ℝ) * 0.7071067 ≤ Real.sqrt 2 * Real.sqrt E :=
    mul_le_mul h2lo hsElo (by norm_num) (Real.sqrt_nonneg 2)
  have hy1 : (0.79056 : ℝ) ≤ (Real.sqrt 5 - Real.sqrt 2 * Real.sqrt E)
      / Real.sqrt 2 := by
    rw [le_div_iff h2pos]
    nlinarith [h2hi, h5lo, hprodhi]
  have hy2 : (Real.sqrt 5 - Real.sqrt 2 * Real.sqrt E) / Real.sqrt 2
      ≤ 0.874034 := by
    rw [div_le_iff h2pos]
    nlinarith [h5hi, hprodlo, h2lo]
  have herf := erfWindowLt _ hy1 hy2
  have hΦ : normalCDF (Real.sqrt 5 - Real.sqrt 2 * Real.sqrt E) < 19 / 20 := by
    simp only [normalCDF]
    linarith
  calc min (max (normalCDF (Real.sqrt 5 - Real.sqrt 2 * Real.sqrt E)) 0) 1
      ≤ max (normalCDF (Real.sqrt 5 - Real.sqrt 2 * Real.sqrt E)) 0 :=
        min_le_left _ _
    _ < 1 - 1 / 20 := max_lt (by linarith) (by norm_num)

/-! ## Claim C6: groundwork -/

/-- `jsSum` of a list of finite values is the finite sum. -/
theorem jsSum_map_fin (l : List ℝ) :
    JSVal.jsSum (l.map JSVal.fin) = JSVal.fin l.sum := by
  induction l with
  | nil => rfl
  | cons a tl ih =>
    simp only [List.map_cons, JSVal.jsSum, List.foldr_cons]
    rw [show (tl.map JSVal.fin).foldr JSVal.jsAdd (JSVal.fin 0)
      = JSVal.jsSum (tl.map JSVal.fin) from rfl, ih]
    simp [JSVal.jsAdd, List.sum_cons]

/-- Array read on a list of finite values, in bounds. -/
theorem jsGet_map_fin (l : List ℝ) (i : ℕ) (h : i < l.length) :
    JSVal.jsGet (l.map JSVal.fin) i = JSVal.fin (l.getD i 0) := by
  rw [JSVal.jsGet, List.getD, List.get?_map,
    List.get?_eq_get (by simpa using h)]
  simp

/-- Splicing out the merged element preserves the list sum: setting
index `j` to the sum of entries `j` and `j+1` and erasing index `j+1`
leaves the total unchanged. -/
theorem sum_merge_at (es : List ℝ) (j : ℕ) (h : j + 1 < es.length) :
    ((es.set j (es.getD j 0 + es.getD (j + 1) 0)).eraseIdx (j + 1)).sum
      = es.sum := by
  induction es generalizing j with
  | nil => simp at h
  | cons a tl ih =>
    cases j with
    | zero =>
      cases tl with
      | nil => simp at h
      | cons b tl2 =>
        simp [List.sum_cons]
        ring
    | succ j2 =>
      have h2 : j2 + 1 < tl.length := by simpa using h
      simp only [List.set, List.eraseIdx, List.sum_cons, List.getD_cons_succ]
      rw [ih j2 h2]

/-- Sum of a map of a pointwise sum splits. -/
theorem list_sum_map_add (l : List ℕ) (f g : ℕ → ℕ) :
    (l.map (fun x => f x + g x)).sum = (l.map f).sum + (l.map g).sum := by
  induction l with
  | nil => simp
  | cons a tl ih => simp [ih]; omega

/-- The indicator of the first matching bin sums to 1 over the bin
range when a match below the bound exists. -/
theorem indicator_sum_one (f : ℝ → Option ℕ) (v : ℝ) (B i0 : ℕ)
    (h : i0 < B) (hf : f v = some i0) :
    ((List.range B).map (fun i => if f v = some i then (1 : ℕ) else 0)).sum
      = 1 := by
  induction B with
  | zero => omega
  | succ B ih =>
    rw [List.range_succ, List.map_append, List.sum_append]
    rcases Nat.lt_succ_iff_lt_or_eq.mp h with hlt | heq
    · rw [ih hlt]
      have : ¬ f v = some B := by
        rw [hf]
        simp
        omega
      simp [this]
    · subst heq
      have hzero : ((List.range i0).map
          (fun i => if f v = some i then (1 : ℕ) else 0)).sum = 0 := by
        apply List.sum_eq_zero
        intro x hx
        obtain ⟨i, hi, hix⟩ := List.mem_map.mp hx
        have hiB := List.mem_range.mp hi
        rw [hf] at hix
        rw [← hix, if_neg]
        simp
        omega
      rw [hzero, hf]
      simp

/-- Counting values by their first matching bin: if every value finds a
bin below the bound, the per-bin counts sum to the number of values. -/
theorem sum_first_match_counts (f : ℝ → Option ℕ) (B : ℕ) (data : List ℝ)
    (h : ∀ v ∈ data, ∃ i, f v = some i ∧ i < B) :
    ((List.range B).map
      (fun i => (data.filter (fun v => f v = some i)).length)).sum
      = data.length := by
  induction data with
  | nil => simp
  | cons v rest ih =>
    obtain ⟨i0, hf, hiB⟩ := h v (List.mem_cons_self v rest)
    have hrest := ih (fun w hw => h w (List.mem_cons_of_mem _ hw))
    have hmap : ((List.range B).map
        (fun i => ((v :: rest).filter (fun w => f w = some i)).length))
        = ((List.range B).map
          (fun i => (rest.filter (fun w => f w = some i)).length
            + if f v = some i then 1 else 0)) := by
      apply List.map_congr_left
      intro i _
      by_cases hc : f v = some i
      · simp [List.filter_cons, hc]
      · simp [List.filter_cons, hc]
    rw [hmap, list_sum_map_add, hrest, indicator_sum_one f v B i0 hiB hf]
    simp

/-- `List.set` commutes with mapping `JSVal.fin`. -/
theorem map_fin_set (l : List ℝ) (n : ℕ) (a : ℝ) :
    (l.map JSVal.fin).set n (JSVal.fin a) = (l.set n a).map JSVal.fin := by
  induction l generalizing n with
  | nil => simp
  | cons h t ihl =>
    cases n with
    | zero => simp
    | succ n => simp only [List.map_cons, List.set_cons_succ, ihl]

/-- `List.eraseIdx` commutes with mapping `JSVal.fin`. -/
theorem map_fin_eraseIdx (l : List ℝ) (n : ℕ) :
    (l.map JSVal.fin).eraseIdx n = (l.eraseIdx n).map JSVal.fin := by
  induction l generalizing n with
  | nil => simp
  | cons h t ihl => cases n <;> simp [List.eraseIdx, ihl]

/-- A left fold of `min` is bounded by its seed. -/
theorem foldl_min_le_init (t : List ℝ) : ∀ b : ℝ, t.foldl min b ≤ b := by
  induction t with
  | nil => intro b; exact le_refl b
  | cons h tl ih =>
    intro b
    exact le_trans (ih (min b h)) (min_le_left b h)

/-- A left fold of `min` is bounded by every list element. -/
theorem foldl_min_le_mem (t : List ℝ) :
    ∀ (b v : ℝ), v ∈ t → t.foldl min b ≤ v := by
  induction t with
  | nil => intro b v hv; cases hv
  | cons h tl ih =>
    intro b v hv
    rcases List.mem_cons.mp hv with rfl | hv2
    · exact le_trans (foldl_min_le_init tl (min b v)) (min_le_right b v)
    · exact ih (min b h) v hv2

/-- A left fold of `max` dominates its seed. -/
theorem le_foldl_max_init (t : List ℝ) : ∀ b : ℝ, b ≤ t.foldl max b := by
  induction t with
  | nil => intro b; exact le_refl b
  | cons h tl ih =>
    intro b
    exact le_trans (le_max_left b h) (ih (max b h))

/-- A left fold of `max` dominates every list element. -/
theorem le_foldl_max_mem (t : List ℝ) :
    ∀ (b v : ℝ), v ∈ t → v ≤ t.foldl max b := by
  induction t with
  | nil => intro b v hv; cases hv
  | cons h tl ih =>
    intro b v hv
    rcases List.mem_cons.mp hv with rfl | hv2
    · exact le_trans (le_max_right b v) (le_foldl_max_init tl (max b v))
    · exact ih (max b h) v hv2

/-- `Math.min(...data)` bounds every element of the data from below. -/
theorem listMin_le_mem (data : List ℝ) (v : ℝ) (hv : v ∈ data) :
    listMin data ≤ v := by
  cases data with
  | nil => cases hv
  | cons h t =>
    rcases List.mem_cons.mp hv with rfl | hv2
    · exact foldl_min_le_init t v
    · exact foldl_min_le_mem t h v hv2

/-- `Math.max(...data)` bounds every element of the data from above. -/
theorem le_listMax_mem (data : List ℝ) (v : ℝ) (hv : v ∈ data) :
    v ≤ listMax data := by
  cases data with
  | nil => cases hv
  | cons h t =>
    rcases List.mem_cons.mp hv with rfl | hv2
    · exact le_foldl_max_init t v
    · exact le_foldl_max_mem t h v hv2

/-- Every value between the data minimum and maximum lands in some bin
of the observed-frequency scan: the loop finds a first matching bin and
its index is below `numBins`. -/
theorem findBinGoF_exists (numBins : ℕ) (mn mx v : ℝ) (hB : 1 ≤ numBins)
    (hmn : mn ≤ v) (hmx : v ≤ mx) :
    ∃ i, findBinGoF numBins mn ((mx - mn) / numBins) v = some i
      ∧ i < numBins := by
  have hB0 : (0 : ℝ) < numBins := by
    exact_mod_cast Nat.pos_of_ne_zero (by omega)
  set w : ℝ := (mx - mn) / numBins with hwdef
  have hw : 0 ≤ w := div_nonneg (by linarith) hB0.le
  have htop : mn + numBins * w = mx := by
    rw [hwdef]
    field_simp
  have hex : ∃ j ∈ List.range numBins,
      (if j = numBins - 1 then decide (mn + j * w ≤ v ∧ v ≤ mn + (j + 1) * w)
      else decide (mn + j * w ≤ v ∧ v < mn + (j + 1) * w)) = true := by
    by_cases hw0 : w = 0
    · refine ⟨numBins - 1, List.mem_range.mpr (by omega), ?_⟩
      rw [if_pos rfl]
      have hmxeq : mx = mn := by rw [hw0] at htop; linarith
      simp only [hw0, mul_zero, add_zero, decide_eq_true_eq]
      constructor <;> linarith [hmx.trans_eq hmxeq]
    · have hwpos : 0 < w := lt_of_le_of_ne hw (Ne.symm hw0)
      have hq0 : 0 ≤ (v - mn) / w := div_nonneg (by linarith) hw
      set i0 : ℕ := (⌊(v - mn) / w⌋).toNat with hi0def
      have hfnn : (0 : ℤ) ≤ ⌊(v - mn) / w⌋ := Int.floor_nonneg.mpr hq0
      have hcast : (i0 : ℝ) = (⌊(v - mn) / w⌋ : ℝ) := by
        rw [hi0def]
        exact_mod_cast congrArg (fun z : ℤ => (z : ℝ))
          (Int.toNat_of_nonneg hfnn)
      have hfl : (i0 : ℝ) ≤ (v - mn) / w := by
        rw [hcast]; exact Int.floor_le _
      have hfl2 : (v - mn) / w < (i0 : ℝ) + 1 := by
        rw [hcast]; exact Int.lt_floor_add_one _
      by_cases hcase : i0 < numBins - 1
      · refine ⟨i0, List.mem_range.mpr (by omega), ?_⟩
        rw [if_neg (by omega)]
        simp only [decide_eq_true_eq]
        constructor
        · have := (le_div_iff hwpos).mp hfl
          linarith
        · have := (div_lt_iff hwpos).mp hfl2
          linarith
      · refine ⟨numBins - 1, List.mem_range.mpr (by omega), ?_⟩
        rw [if_pos rfl]
        simp only [decide_eq_true_eq]
        have hge : ((numBins - 1 : ℕ) : ℝ) ≤ (v - mn) / w := by
          calc ((numBins - 1 : ℕ) : ℝ) ≤ (i0 : ℝ) := by
                exact_mod_cast Nat.le_of_not_lt hcase
            _ ≤ (v - mn) / w := hfl
        constructor
        · have := (le_div_iff hwpos).mp hge
          linarith
        · have hone : ((numBins - 1 : ℕ) : ℝ) + 1 = (numBins : ℝ) := by
            have : (numBins - 1 : ℕ) + 1 = numBins := by omega
            exact_mod_cast congrArg (fun k : ℕ => (k : ℝ)) this
          rw [hone]
          linarith [htop]
  obtain ⟨j, hjmem, hjp⟩ := hex
  have hsome : ((List.range numBins).find? (fun i =>
      if i = numBins - 1 then decide (mn + i * w ≤ v ∧ v ≤ mn + (i + 1) * w)
      else decide (mn + i * w ≤ v ∧ v < mn + (i + 1) * w))).isSome := by
    rw [List.find?_isSome]
    exact ⟨j, hjmem, hjp⟩
  obtain ⟨i, hifind⟩ := Option.isSome_iff_exists.mp hsome
  exact ⟨i, hifind,
    List.mem_range.mp (List.mem_of_find?_eq_some hifind)⟩

/-- The first-bin merge step (`exp[1] += exp[0]`, splice out index 0)
on a finite array of at least two entries. -/
theorem headMerge_map_fin (a b : ℝ) (l : List ℝ) :
    (JSVal.jsSet ((a :: b :: l).map JSVal.fin) 1
      (JSVal.jsAdd (JSVal.jsGet ((a :: b :: l).map JSVal.fin) 1)
        (JSVal.jsGet ((a :: b :: l).map JSVal.fin) 0))).eraseIdx 0
    = ((b + a) :: l).map JSVal.fin := by
  simp [JSVal.jsSet, JSVal.jsGet, JSVal.jsAdd, List.eraseIdx]

/-- The backward merge step (`exp[i-1] += exp[i]`, splice out index
`i`) on a finite array, in terms of the underlying reals. -/
theorem innerMerge_map_fin (l : List ℝ) (i : ℕ) (h0 : 0 < i)
    (h : i < l.length) :
    ((l.map JSVal.fin).set (i - 1)
      (JSVal.jsAdd (JSVal.jsGet (l.map JSVal.fin) (i - 1))
        (JSVal.jsGet (l.map JSVal.fin) i))).eraseIdx i
    = ((l.set (i - 1) (l.getD (i - 1) 0 + l.getD i 0)).eraseIdx i).map
        JSVal.fin := by
  rw [jsGet_map_fin l (i - 1) (by omega), jsGet_map_fin l i h]
  have hadd : JSVal.jsAdd (JSVal.fin (l.getD (i - 1) 0))
      (JSVal.fin (l.getD i 0))
      = JSVal.fin (l.getD (i - 1) 0 + l.getD i 0) := rfl
  rw [hadd, map_fin_set, map_fin_eraseIdx]

/-- The merging loop of `goodnessOfFitAnalysis.ts` preserves finiteness
and both column sums whenever the total expected frequency is at least
5 (ruling out the degenerate single-low-bin exit, which is the only
path that manufactures NaN). -/
theorem mergeBinsGoF_sum : ∀ (fuel : ℕ) (os es : List ℝ) (i : ℕ)
    (obs2 exp2 : List JSVal),
    os.length = es.length → (5 : ℝ) ≤ es.sum →
    mergeBinsGoF fuel (os.map JSVal.fin) (es.map JSVal.fin) i
      = some (obs2, exp2) →
    ∃ os2 es2 : List ℝ, obs2 = os2.map JSVal.fin
      ∧ exp2 = es2.map JSVal.fin ∧ os2.sum = os.sum ∧ es2.sum = es.sum := by
  intro fuel
  induction fuel with
  | zero =>
    intro os es i obs2 exp2 _ _ h
    simp [mergeBinsGoF] at h
  | succ fuel ih =>
    intro os es i obs2 exp2 hlen hsum h
    rw [mergeBinsGoF] at h
    simp only [List.length_map] at h
    by_cases hi : i < es.length
    · rw [if_pos hi] at h
      by_cases hlt :
          JSVal.jsLtR (JSVal.jsGet (es.map JSVal.fin) i) 5 = true
      · rw [if_pos hlt] at h
        rw [jsGet_map_fin es i hi] at hlt
        simp only [JSVal.jsLtR, decide_eq_true_eq] at hlt
        by_cases hi0 : i = 0
        · subst hi0
          match es, hi, hlt, hsum with
          | [e0], _, hlt, hsum =>
            exfalso
            simp only [List.getD, List.get?, Option.getD_some] at hlt
            simp only [List.sum_cons, List.sum_nil, add_zero] at hsum
            linarith
          | e0 :: e1 :: rest, _, hlt, hsum =>
            match os, hlen with
            | o0 :: o1 :: rest_o, hlen =>
              rw [if_pos rfl, headMerge_map_fin o0 o1 rest_o,
                headMerge_map_fin e0 e1 rest] at h
              obtain ⟨os2, es2, h1, h2, h3, h4⟩ :=
                ih ((o1 + o0) :: rest_o) ((e1 + e0) :: rest) 0 obs2 exp2
                  (by simpa using hlen)
                  (by simp only [List.sum_cons] at hsum ⊢; linarith) h
              refine ⟨os2, es2, h1, h2, ?_, ?_⟩
              · rw [h3]; simp only [List.sum_cons]; ring
              · rw [h4]; simp only [List.sum_cons]; ring
        · rw [if_neg hi0] at h
          have hio : i < os.length := by omega
          rw [innerMerge_map_fin os i (by omega) hio,
            innerMerge_map_fin es i (by omega) hi] at h
          have hstep : i - 1 + 1 = i := by omega
          have hsumo :
              ((os.set (i - 1) (os.getD (i - 1) 0 + os.getD i 0)).eraseIdx
                i).sum = os.sum := by
            have := sum_merge_at os (i - 1) (by omega)
            rwa [hstep] at this
          have hsume :
              ((es.set (i - 1) (es.getD (i - 1) 0 + es.getD i 0)).eraseIdx
                i).sum = es.sum := by
            have := sum_merge_at es (i - 1) (by omega)
            rwa [hstep] at this
          have hlen2 :
              ((os.set (i - 1) (os.getD (i - 1) 0 + os.getD i 0)).eraseIdx
                  i).length
                = ((es.set (i - 1) (es.getD (i - 1) 0
                    + es.getD i 0)).eraseIdx i).length := by
            rw [List.length_eraseIdx, List.length_eraseIdx]
            simp [hlen, hio, hi]
          obtain ⟨os2, es2, h1, h2, h3, h4⟩ :=
            ih _ _ i obs2 exp2 hlen2 (by rw [hsume]; exact hsum) h
          exact ⟨os2, es2, h1, h2, by rw [h3, hsumo],
            by rw [h4, hsume]⟩
      · rw [if_neg hlt] at h
        exact ih os es (i + 1) obs2 exp2 hlen hsum h
    · rw [if_neg hi] at h
      simp only [Option.some.injEq, Prod.mk.injEq] at h
      exact ⟨os, es, h.1.symm, h.2.symm, rfl, rfl⟩

/-- Every expected-frequency array the per-family switch returns has
one entry per bin. -/
theorem expectedFreqsGoF_length (data : List ℝ) (dist : String)
    (params : List (String × ℝ)) (numBins : ℕ) (es : List ℝ)
    (hexp : expectedFreqsGoF data dist params numBins = .ok es) :
    es.length = numBins := by
  simp only [expectedFreqsGoF] at hexp
  split_ifs at hexp
  all_goals first
    | (injection hexp with h; subst h;
        rw [List.length_map, List.length_range])
    | cases hexp

/-- The observed frequencies of the merging chi-square test sum to the
sample size (every value lands in exactly one first-matching bin). -/
theorem observedFreqsGoF_sum (data : List ℝ) (numBins : ℕ)
    (hB : 1 ≤ numBins) :
    (observedFreqsGoF data numBins).sum = data.length := by
  simp only [observedFreqsGoF]
  exact sum_first_match_counts
    (findBinGoF numBins (listMin data)
      ((listMax data - listMin data) / numBins)) numBins data
    (fun v hv => findBinGoF_exists numBins (listMin data) (listMax data) v
      hB (listMin_le_mem data v hv) (le_listMax_mem data v hv))

/-- Casting a sum of naturals into the reals elementwise. -/
theorem sum_map_natCast (l : List ℕ) :
    (l.map (fun k => ((k : ℕ) : ℝ))).sum = ((l.sum : ℕ) : ℝ) := by
  induction l with
  | nil => simp
  | cons a t ih =>
    simp only [List.map_cons, List.sum_cons, ih, Nat.cast_add]

/-! ## Claim C6 -/

/-- C6 amended: for the merging `calculateChiSquareTest`
(`goodnessOfFitAnalysis.ts`), whenever at least one bin is requested,
the per-family expected frequencies are produced, and the total
expected frequency is at least 5 (ruling out the degenerate
single-low-bin exit that manufactures NaN), the observed frequencies of
the returned result sum to exactly the sample size: low-expected bins
are merged into a neighbour (first bin forward, others backward), never
discarded.  The part_008 copy, by contrast, discards low-expected bins
outright and violates the sum property (see the counterexample). -/
theorem chi_square_observed_sum (data : List ℝ) (dist : String)
    (params : List (String × ℝ)) (numBins : ℕ) (es : List ℝ)
    (r : ChiSquareGoFResult) (hB : 1 ≤ numBins)
    (hexp : expectedFreqsGoF data dist params numBins = .ok es)
    (hsum : (5 : ℝ) ≤ es.sum)
    (hres : calculateChiSquareTestGoF data dist params numBins
      = .ok (some r)) :
    JSVal.jsSum r.observedFrequencies = JSVal.fin (data.length) := by
  simp only [calculateChiSquareTestGoF, hexp] at hres
  rcases hmerge : mergeBinsGoF (2 * numBins + 3)
      ((observedFreqsGoF data numBins).map (fun k : ℕ => JSVal.fin (k : ℝ)))
      (es.map JSVal.fin) 0 with _ | ⟨obs2, exp2⟩
  · rw [hmerge] at hres
    simp at hres
  · rw [hmerge] at hres
    simp only [Except.ok.injEq, Option.some.injEq] at hres
    subst hres
    show JSVal.jsSum obs2 = JSVal.fin (data.length)
    have hcast : (observedFreqsGoF data numBins).map
        (fun k : ℕ => JSVal.fin (k : ℝ))
        = ((observedFreqsGoF data numBins).map
            (fun k : ℕ => ((k : ℕ) : ℝ))).map JSVal.fin := by
      rw [List.map_map]
      rfl
    rw [hcast] at hmerge
    have hlen : ((observedFreqsGoF data numBins).map
        (fun k : ℕ => ((k : ℕ) : ℝ))).length = es.length := by
      rw [List.length_map,
        expectedFreqsGoF_length data dist params numBins es hexp]
      simp [observedFreqsGoF]
    obtain ⟨os2, es2, h1, h2, h3, h4⟩ :=
      mergeBinsGoF_sum (2 * numBins + 3) _ es 0 obs2 exp2 hlen hsum hmerge
    rw [h1, jsSum_map_fin]
    congr 1
    rw [h3, sum_map_natCast, observedFreqsGoF_sum data numBins hB]

/-- Witness for C6 at the sample `[0, 1, 2, 3, 4]` with the uniform
family and a single bin: the expected frequencies are `[5]` (total 5),
the returned observed frequencies are `[5]`, and their sum is the
sample size 5. -/
theorem chi_square_observed_sum_witness :
    expectedFreqsGoF [0, 1, 2, 3, 4] "uniform" [] 1 = .ok [5]
    ∧ (5 : ℝ) ≤ ([(5 : ℝ)]).sum
    ∧ calculateChiSquareTestGoF [0, 1, 2, 3, 4] "uniform" [] 1
        = .ok (some ⟨JSVal.fin 0, -1, [JSVal.fin 5], [JSVal.fin 5]⟩)
    ∧ JSVal.jsSum [JSVal.fin 5]
        = JSVal.fin (([0, 1, 2, 3, 4] : List ℝ).length) := by
  have hmin : listMin [0, 1, 2, 3, 4] = 0 := by
    simp only [listMin]
    norm_num [min_def]
  have hmax : listMax [0, 1, 2, 3, 4] = 4 := by
    simp only [listMax]
    norm_num [max_def]
  have hr1 : List.range 1 = [0] := rfl
  have hsA : (("uniform" : String) = "normal") = False := eq_false (by decide)
  have hsB : (("uniform" : String) = "uniform") = True := eq_true rfl
  have h1 : expectedFreqsGoF [0, 1, 2, 3, 4] "uniform" [] 1 = .ok [5] := by
    simp only [expectedFreqsGoF, paramOr, List.lookup, hmin, hmax, hsA, hsB,
      if_true, if_false]
    norm_num [hr1]
  have hbin : ∀ v : ℝ, 0 ≤ v → v ≤ 4 →
      findBinGoF 1 0 ((4 - 0) / ((1 : ℕ) : ℝ)) v = some 0 := by
    intro v h0 h4
    simp only [findBinGoF, hr1]
    apply List.find?_cons_of_pos
    rw [if_pos rfl]
    apply decide_eq_true
    push_cast
    constructor <;> linarith
  have hobs : observedFreqsGoF [0, 1, 2, 3, 4] 1 = [5] := by
    simp only [observedFreqsGoF, hmin, hmax, hr1,
      List.map_cons, List.map_nil]
    have hfilter : (([0, 1, 2, 3, 4] : List ℝ).filter
        (fun v => findBinGoF 1 0 ((4 - 0) / ((1 : ℕ) : ℝ)) v = some 0))
        = [0, 1, 2, 3, 4] := by
      rw [List.filter_eq_self]
      intro v hv
      apply decide_eq_true
      fin_cases hv <;> rw [hbin _ (by norm_num) (by norm_num)]
    rw [hfilter]
    norm_num
  have hmg : mergeBinsGoF 5 [JSVal.fin (5 : ℝ)] [JSVal.fin (5 : ℝ)] 0
      = some ([JSVal.fin (5 : ℝ)], [JSVal.fin (5 : ℝ)]) := by
    show mergeBinsGoF (4 + 1) [JSVal.fin (5 : ℝ)] [JSVal.fin (5 : ℝ)] 0
      = some ([JSVal.fin (5 : ℝ)], [JSVal.fin (5 : ℝ)])
    rw [mergeBinsGoF]
    rw [if_pos (by norm_num : (0 : ℕ) < [JSVal.fin (5 : ℝ)].length)]
    rw [if_neg (by simp [JSVal.jsGet, JSVal.jsLtR])]
    show mergeBinsGoF (3 + 1) [JSVal.fin (5 : ℝ)] [JSVal.fin (5 : ℝ)] 1
      = some ([JSVal.fin (5 : ℝ)], [JSVal.fin (5 : ℝ)])
    rw [mergeBinsGoF]
    rw [if_neg (by norm_num)]
  have hstat : chiSquareStatGoF [JSVal.fin (5 : ℝ)] [JSVal.fin (5 : ℝ)]
      = JSVal.fin 0 := by
    simp [chiSquareStatGoF, jsGtR, jsDiv, JSVal.jsSq, jsSub, JSVal.jsAdd,
      JSVal.jsNeg]
  have h2 : calculateChiSquareTestGoF [0, 1, 2, 3, 4] "uniform" [] 1
      = .ok (some ⟨JSVal.fin 0, -1, [JSVal.fin 5], [JSVal.fin 5]⟩) := by
    simp only [calculateChiSquareTestGoF, h1, hobs, List.map_cons,
      List.map_nil, Nat.cast_ofNat, hsA, if_false]
    norm_num [hmg, hstat]
  refine ⟨h1, by norm_num, h2, ?_⟩
  exact chi_square_observed_sum [0, 1, 2, 3, 4] "uniform" [] 1 [5]
    ⟨JSVal.fin 0, -1, [JSVal.fin 5], [JSVal.fin 5]⟩ (by norm_num) h1
    (by norm_num) h2

/-- Dataset for the C6 counterexample against the filtering copy:
one 0, twenty-seven 0.5s, one 5.5 and one 6 (30 values). -/
noncomputable def gofCounterData : List ℝ :=
  0 :: (List.replicate 27 (1 / 2) ++ [11 / 2, 6])

/-- Filtering a constant list keeps all of it or none of it. -/
theorem filter_replicate_eval {α : Type} (p : α → Bool) (n : ℕ) (a : α) :
    (List.replicate n a).filter p
      = if p a then List.replicate n a else [] := by
  induction n with
  | zero => simp
  | succ n ih =>
    rw [List.replicate_succ, List.filter_cons, ih]
    by_cases h : p a = true
    · simp [h, List.replicate_succ]
    · simp [h]

/-- Folding `min` over a constant list. -/
theorem foldl_min_replicate (n : ℕ) (a : ℝ) : ∀ b : ℝ,
    (List.replicate n a).foldl min b = if n = 0 then b else min b a := by
  induction n with
  | zero => intro b; simp
  | succ n ih =>
    intro b
    rw [List.replicate_succ, List.foldl_cons, ih]
    by_cases h : n = 0
    · simp [h]
    · rw [if_neg h, if_neg (by omega), min_assoc, min_self]

/-- Folding `max` over a constant list. -/
theorem foldl_max_replicate (n : ℕ) (a : ℝ) : ∀ b : ℝ,
    (List.replicate n a).foldl max b = if n = 0 then b else max b a := by
  induction n with
  | zero => intro b; simp
  | succ n ih =>
    intro b
    rw [List.replicate_succ, List.foldl_cons, ih]
    by_cases h : n = 0
    · simp [h]
    · rw [if_neg h, if_neg (by omega), max_assoc, max_self]

/-- The minimum of the counterexample dataset. -/
theorem gofCounterData_min : listMin gofCounterData = 0 := by
  simp only [gofCounterData, listMin]
  rw [List.foldl_append, foldl_min_replicate]
  norm_num [List.foldl_cons, List.foldl_nil, min_def]

/-- The maximum of the counterexample dataset. -/
theorem gofCounterData_max : listMax gofCounterData = 6 := by
  simp only [gofCounterData, listMax]
  rw [List.foldl_append, foldl_max_replicate]
  norm_num [List.foldl_cons, List.foldl_nil, max_def]

/-- Membership count of a half-open bin over the counterexample data,
reduced to the four distinct values it contains. -/
theorem counterData_filter (lo hi : ℝ) (b0 bh b5 b6 : Bool)
    (h0 : decide (lo ≤ (0 : ℝ) ∧ (0 : ℝ) < hi) = b0)
    (hh : decide (lo ≤ (1 / 2 : ℝ) ∧ (1 / 2 : ℝ) < hi) = bh)
    (h5 : decide (lo ≤ (11 / 2 : ℝ) ∧ (11 / 2 : ℝ) < hi) = b5)
    (h6 : decide (lo ≤ (6 : ℝ) ∧ (6 : ℝ) < hi) = b6) :
    (gofCounterData.filter (fun v => lo ≤ v ∧ v < hi)).length
      = (if b0 then 1 else 0) + (if bh then 27 else 0)
        + (if b5 then 1 else 0) + (if b6 then 1 else 0) := by
  simp only [gofCounterData]
  rw [List.filter_cons, List.filter_append, filter_replicate_eval,
    List.filter_cons, List.filter_cons, List.filter_nil]
  rw [h0, hh, h5, h6]
  cases b0 <;> cases bh <;> cases b5 <;> cases b6 <;>
    simp [List.length_append, List.length_replicate]

/-- C6 counterexample: on 30 data points (one 0, twenty-seven 0.5s,
one 5.5, one 6) against a uniform(0,5) reference with 6 bins, the
part_008 `calculateChiSquareTest` keeps only the 5 bins with expected
frequency 6 and silently drops the last bin (expected 0) together with
its 2 observations: the reported observed frequencies sum to 28, not
30, so low-expected bins are discarded, not merged. -/
theorem chi_square_filter_counterexample :
    gofCounterData.length = 30
    ∧ ((calculateChiSquareTestStats gofCounterData "uniform"
        [("b", 5)] 6).bins.map (fun b => b.observed)).sum = 28
    ∧ (28 : ℕ) ≠ 30 := by
  refine ⟨by simp [gofCounterData], ?_, by decide⟩
  have hr6 : List.range 6 = [0, 1, 2, 3, 4, 5] := rfl
  have hab : (("a" : String) == "b") = false := rfl
  have hbins : chiBinsStats gofCounterData "uniform" [("b", 5)] 6
      = [⟨0, 1, 28, JSVal.fin 6⟩, ⟨1, 2, 0, JSVal.fin 6⟩,
         ⟨2, 3, 0, JSVal.fin 6⟩, ⟨3, 4, 0, JSVal.fin 6⟩,
         ⟨4, 5, 0, JSVal.fin 6⟩,
         ⟨5, 6 + jsEpsilon, 2, JSVal.fin 0⟩] := by
    simp only [chiBinsStats, gofCounterData_min, gofCounterData_max, hr6,
      List.map_cons, List.map_nil, List.cons.injEq, ChiBin.mk.injEq]
    repeat' apply And.intro
    all_goals first
      | (rw [counterData_filter _ _ true true false false] <;>
          norm_num [jsEpsilon] <;> done)
      | (rw [counterData_filter _ _ false false false false] <;>
          norm_num [jsEpsilon] <;> done)
      | (rw [counterData_filter _ _ false false true true] <;>
          norm_num [jsEpsilon] <;> done)
      | (rw [if_neg (by decide : ¬("uniform" : String) = "normal"),
            if_neg (by decide : ¬("uniform" : String) = "exponential")]
          <;> norm_num [paramOr, List.lookup, gofCounterData, jsEpsilon,
                max_def, min_def, hab]
          <;> done)
      | (norm_num [jsEpsilon] <;> done)
  have hgeT : jsGeR (JSVal.fin 6) 5 = true := by
    simp only [jsGeR]
    exact decide_eq_true (by norm_num)
  have hgeF : jsGeR (JSVal.fin 0) 5 = false := by
    simp only [jsGeR]
    exact decide_eq_false (by norm_num)
  simp only [calculateChiSquareTestStats, hbins, List.filter_cons,
    List.filter_nil, hgeT, hgeF, if_true, if_false]
  norm_num
